import Mathlib

/-!
Shallow embedding of the `promql/series` check from
`internal/checks/promql_series.go` (the `SeriesCheck` type and its helper
functions), together with theorems about the embedded definitions.

Modelling conventions:
- `time.Time` and `time.Duration` are embedded as `Int` (nanoseconds), which
  is exactly Go's representation (`int64` nanoseconds); overflow is not
  modelled since no claim depends on it.
- Go's integer division / remainder truncate towards zero, so they are
  embedded with `Int.tdiv` / `Int.tmod` (Lean's `/` on `Int` is Euclidean).
- `model.LabelSet` (a Go map from label name to value) is embedded as a
  canonically ordered association list; Go's map equality becomes list
  equality, and map iteration order is only ever observed through
  cardinalities in the source.
- External collaborators (the query backend `promapi.FailoverGroup`, the
  comment store of `parser.Rule`, `discovery.Entry`, the error classifier
  `textAndSeverityFromError`, `output.HumanizeDuration`, `promText` and
  `model.ParseDuration`) are embedded as oracle functions carried by a
  context structure `Ctx` / `Rule` / `Entry`; the checker only observes
  their results, matching the interfaces described in the specification.
-/

namespace PintSeries

/-- Severity of a reported problem, from the checks package. -/
inductive Severity where
| Information : Severity
| Warning : Severity
| Bug : Severity
deriving DecidableEq, Repr

/-- A reported problem (finding): fragment, source lines, reporter id, text
and severity. -/
structure Problem where
  fragment : String
  lines : List Nat
  reporter : String
  text : String
  severity : Severity
deriving DecidableEq, Repr

/-- A resolved label combination; embedding of `model.LabelSet` as a
canonically ordered association list. -/
abbrev LabelSet := List (String × String)

/-- Matcher kinds of `labels.MatchType`. -/
inductive MatchType where
| MatchEqual : MatchType
| MatchNotEqual : MatchType
| MatchRegexp : MatchType
| MatchNotRegexp : MatchType
deriving DecidableEq, Repr

/-- A label matcher (`labels.Matcher`): label name, match kind, value.
The source field `Type` is named `mtype` here (`type` is reserved). -/
structure Matcher where
  name : String
  mtype : MatchType
  value : String
deriving DecidableEq, Repr

/-- Rendering of a match operator, from the external matcher printer. -/
def matchTypeStr : MatchType → String
| MatchType.MatchEqual => ("=")
| MatchType.MatchNotEqual => ("!=")
| MatchType.MatchRegexp => ("=~")
| MatchType.MatchNotRegexp => ("!~")

/-- Rendering of a matcher, `name<op>"value"`; embedding of the external
`labels.Matcher.String` (values in our developments need no escaping). -/
def Matcher.toStr (m : Matcher) : String :=
  m.name ++ matchTypeStr m.mtype ++ ("\x22") ++ m.value ++ ("\x22")

/-- The `__name__` meta label (`labels.MetricName`). -/
def metricNameLabel : String := "__name__"

/-- A vector selector (`promParser.VectorSelector`): metric name plus label
matchers. Offsets are dropped by `getSelectors` in the source and are not
modelled. -/
structure VectorSelector where
  name : String
  labelMatchers : List Matcher
deriving DecidableEq, Repr

/-- Rendering of a vector selector, embedding the external
`VectorSelector.String`: the metric name followed by the non-`__name__`
matchers in braces (omitted when there are none). -/
def VectorSelector.toStr (vs : VectorSelector) : String :=
  let ms := vs.labelMatchers.filter (fun m => m.name ≠ metricNameLabel)
  if ms.isEmpty then vs.name
  else vs.name ++ ("\x7b") ++ String.intercalate (",") (ms.map Matcher.toStr) ++ ("\x7d")

/-- Nanoseconds per second (`time.Second`). -/
def nsPerSecond : Int := 1000000000

/-- Nanoseconds per minute (`time.Minute`). -/
def nsPerMinute : Int := 60000000000

/-- Nanoseconds per hour (`time.Hour`). -/
def nsPerHour : Int := 3600000000000

/-- Nanoseconds per day (`time.Hour * 24`). -/
def nsPerDay : Int := 86400000000000

/-- The fixed historical lookback window of `Check`: `time.Hour * 24 * 7`. -/
def rangeLookback : Int := 7 * 86400000000000

/-- The fixed sampling step of `Check`: `time.Minute * 5`. -/
def rangeStep : Int := 5 * 60000000000

/-- The reporter identifier `SeriesCheckName = "promql/series"`. -/
def seriesCheckName : String := "promql/series"

/-- One presence interval (`timeRange`): a label-set plus `[start, end)`.
The source field `end` is named `stop` here (`end` is reserved). -/
structure timeRange where
  labels : LabelSet
  start : Int
  stop : Int
deriving DecidableEq, Repr

/-- A set of presence intervals (`timeRanges`): endpoint URI, query window,
step and interval list. The source fields `from` / `until` are named
`tfrom` / `tuntil` here (`from` is reserved). -/
structure timeRanges where
  uri : String
  tfrom : Int
  tuntil : Int
  step : Int
  ranges : List timeRange
deriving DecidableEq, Repr

/-- Intervals whose label-set carries the given label name, one occurrence
per matching key, mirroring the map iteration of `timeRanges.withLabelName`. -/
def timeRanges.withLabelName (tr : timeRanges) (name : String) : List timeRange :=
  tr.ranges.flatMap (fun s => s.labels.flatMap (fun kv => if kv.1 = name then [s] else []))

/-- Distinct values of the given label across the interval set, mirroring
the set-valued collection of `timeRanges.labelValues` (the source returns
them in Go map order; only the cardinality is ever observed). -/
def timeRanges.labelValues (tr : timeRanges) (name : String) : List String :=
  (tr.ranges.flatMap (fun s => s.labels.filterMap (fun kv => if kv.1 = name then some kv.2 else none))).dedup

/-- Window length, `until - from` (`timeRanges.duration`). -/
def timeRanges.duration (tr : timeRanges) : Int :=
  tr.tuntil - tr.tfrom

/-- Mean interval length (`timeRanges.avgLife`): the summed lengths are
converted to whole seconds (`int(d.Seconds())`, exact truncating division
for the magnitudes involved), divided by the interval count with Go's
truncating integer division and scaled back to `time.Second`. -/
def timeRanges.avgLife (tr : timeRanges) : Int :=
  let d := tr.ranges.foldl (fun acc r => acc + (r.stop - r.start)) 0
  if tr.ranges.length = 0 then 0
  else nsPerSecond * (Int.tdiv (Int.tdiv d nsPerSecond) (tr.ranges.length : Int))

/-- Earliest interval start (`timeRanges.oldest`). The Go original uses the
zero `time.Time` as sentinel; an `Option` accumulator avoids the sentinel
and agrees with it on every input whose timestamps are not the zero time. -/
def timeRanges.oldest (tr : timeRanges) : Int :=
  (tr.ranges.foldl
    (fun acc r =>
      match acc with
      | none => some r.start
      | some t => if r.start < t then some r.start else some t)
    none).getD 0

/-- Latest interval end (`timeRanges.newest`), same sentinel remark as for
`timeRanges.oldest`. -/
def timeRanges.newest (tr : timeRanges) : Int :=
  (tr.ranges.foldl
    (fun acc r =>
      match acc with
      | none => some r.stop
      | some t => if t < r.stop then some r.stop else some t)
    none).getD 0

/-- Helper of `time.Duration.Round`: `x+x < y`. -/
def lessThanHalf (x m : Int) : Bool :=
  decide (x + x < m)

/-- Embedding of `time.Duration.Round` (round to the nearest multiple of
`m`, halfway away from zero); the overflow clamps of the original cannot
trigger on unbounded integers and are not modelled. -/
def durRound (d m : Int) : Int :=
  if m ≤ 0 then d
  else
    let r := Int.tmod d m
    if d < 0 then
      let r2 := -r
      if lessThanHalf r2 m then d + r2 else d - (m - r2)
    else
      if lessThanHalf r m then d - r else d + (m - r)

/-- A rule comment (`comments.Comment` as consumed here): its value and its
rendered form (`Comment.String`), both opaque strings. -/
structure Comment where
  value : String
  str : String
deriving DecidableEq, Repr

/-- The comment store and line range exposed by `parser.Rule`; an external
collaborator, embedded as lookup oracles. -/
structure Rule where
  hasComment : String → Bool
  getComment : List String → Option Comment
  lineRange : List Nat

/-- A discovered sibling rule (`discovery.Entry`) as consumed by the check:
its path, its alerting-rule alert name (if an alerting rule), its
recording-rule record name (if a recording rule) and whether the entry
itself failed to parse (`Rule.Error.Err != nil`). -/
structure Entry where
  path : String
  alertingName : Option String
  recordingName : Option String
  hasError : Bool
deriving DecidableEq, Repr

/-- An expression tree node (`parser.PromQLNode`): an optional vector
selector at this node plus child nodes. Other node kinds carry no selector
and are represented by `none`. -/
inductive PromQLNode where
| mk : Option VectorSelector → List PromQLNode → PromQLNode

/-- The parsed expression of a rule (`parser.PromQLExpr`): syntax error,
query tree and source lines. -/
structure PromQLExpr where
  syntaxError : Option String
  query : PromQLNode
  lines : List Nat

/-- Result of an instant query (`promapi.QueryResult` as consumed):
endpoint URI and the per-series values already truncated to integers
(`int(s.Value)`). -/
structure InstantQueryResult where
  uri : String
  values : List Int
deriving DecidableEq, Repr

/-- One sample stream of a range query: resolved label-set and the sample
timestamps (values are never inspected by the check). -/
structure SampleStream where
  metric : LabelSet
  values : List Int
deriving DecidableEq, Repr

/-- Result of a range query (`promapi.RangeQueryResult` as consumed):
endpoint URI, window `[start, stop]` and sample streams. The source field
`End` is named `stop` here. -/
structure RangeQueryResult where
  uri : String
  start : Int
  stop : Int
  samples : List SampleStream
deriving DecidableEq, Repr

/-- Modelled from the spec: the evaluation context bundling the external
collaborators consumed by `SeriesCheck.Check` — the failover query backend
(`prom.Name`, `prom.Query`, `prom.RangeQuery`), the shared error
classifier `textAndSeverityFromError` (returns message and severity given
an error and a default severity), the `promText` formatter, the
`output.HumanizeDuration` presenter, `model.ParseDuration` (embedded as a
partial function: `none` on parse failure) and the current wall-clock time
used by `time.Since`. None of these live under the embedded source file;
they are oracles whose outputs the checker consumes unchanged. -/
structure Ctx where
  promName : String
  query : String → Except String InstantQueryResult
  rangeQuery : String → Int → Int → Except String RangeQueryResult
  textAndSeverityFromError : String → String → String → Severity → String × Severity
  promText : String → String → String
  humanizeDuration : Int → String
  parseDuration : String → Option Int
  now : Int

/-- Embedding of `timeRanges.sinceDesc`: humanize `time.Since(t)`, rounded
to the hour beyond one day and to the minute otherwise (the receiver is
unused by the source method). -/
def sinceDesc (ctx : Ctx) (t : Int) : String :=
  let dur := ctx.now - t
  if nsPerDay < dur then ctx.humanizeDuration (durRound dur nsPerHour)
  else ctx.humanizeDuration (durRound dur nsPerMinute)

/-- Embedding of `SeriesCheck.queryProblem`: classify the error with the
shared routine (default severity `Bug`) and report it against the given
selector text. -/
def queryProblem (ctx : Ctx) (err : String) (selector : String) (expr : PromQLExpr) : Problem :=
  let ts := ctx.textAndSeverityFromError err seriesCheckName ctx.promName Severity.Bug
  { fragment := selector
    lines := expr.lines
    reporter := seriesCheckName
    text := ts.1
    severity := ts.2 }

/-- Embedding of `SeriesCheck.instantSeriesCount`: sum the series values of
an instant query. -/
def instantSeriesCount (ctx : Ctx) (query : String) : Except String (Int × String) :=
  match ctx.query query with
  | Except.error e => Except.error e
  | Except.ok qr => Except.ok (qr.values.foldl (fun acc v => acc + v) 0, qr.uri)

/-- Inner scan of `serieTimeRanges`: find the first interval of the exact
label-set whose span `start ≤ ts ≤ end` admits the sample, and extend its
end to `ts + step`; `none` when no interval admits it. -/
def extendFirst (metric : LabelSet) (ts step : Int) : List timeRange → Option (List timeRange)
| [] => none
| r :: rs =>
  if r.labels = metric ∧ r.start ≤ ts ∧ ts ≤ r.stop then
    some ({ r with stop := ts + step } :: rs)
  else
    match extendFirst metric ts step rs with
    | some rs2 => some (r :: rs2)
    | none => none

/-- One sample of `serieTimeRanges`: either extend the first admitting
interval or append a fresh interval `[ts, ts+step)`. -/
def addSample (step : Int) (ranges : List timeRange) (metric : LabelSet) (ts : Int) : List timeRange :=
  match extendFirst metric ts step ranges with
  | some rs => rs
  | none => ranges ++ [{ labels := metric, start := ts, stop := ts + step }]

/-- Embedding of `SeriesCheck.serieTimeRanges`: run a range query and
coalesce its samples, stream by stream and timestamp by timestamp, into
presence intervals. -/
def serieTimeRanges (ctx : Ctx) (query : String) (lookback step : Int) : Except String timeRanges :=
  match ctx.rangeQuery query lookback step with
  | Except.error e => Except.error e
  | Except.ok qr =>
    Except.ok
      { uri := qr.uri
        tfrom := qr.start
        tuntil := qr.stop
        step := step
        ranges := qr.samples.foldl
          (fun acc s => s.values.foldl (fun acc2 ts => addSample step acc2 s.metric ts) acc)
          [] }

/-- Embedding of `stripLabels`: keep only the `__name__` matchers and take
the metric name from them. -/
def stripLabels (selector : VectorSelector) : VectorSelector :=
  selector.labelMatchers.foldl
    (fun s lm =>
      if lm.name = metricNameLabel then
        { name := lm.value, labelMatchers := s.labelMatchers ++ [lm] }
      else s)
    { name := selector.name, labelMatchers := [] }

mutual

/-- Embedding of `getSelectors`: collect every vector selector of the
expression tree in depth-first order (offsets are dropped by the source at
collection time and never modelled). -/
def getSelectors : PromQLNode → List VectorSelector
| PromQLNode.mk node children =>
  (match node with
   | some vs => [vs]
   | none => []) ++ getSelectorsList children

/-- Depth-first collection over the child list, the loop of `getSelectors`. -/
def getSelectorsList : List PromQLNode → List VectorSelector
| [] => []
| c :: cs => getSelectors c ++ getSelectorsList cs

end

/-- Metric name resolution at the top of the selector loop: the selector
name, or else the value of the first `__name__` equality matcher. -/
def selectorMetricName (selector : VectorSelector) : String :=
  if selector.name ≠ ("") then selector.name
  else
    match selector.labelMatchers.find? (fun lm => lm.name = metricNameLabel ∧ lm.mtype = MatchType.MatchEqual) with
    | some lm => lm.value
    | none => ("")

/-- The `alertname` value against which an `ALERTS` / `ALERTS_FOR_STATE`
selector is cross-checked: the last `alertname` matcher that is neither a
regexp nor a negated-regexp matcher (the source loop overwrites without
breaking). -/
def alertnameFromSelector (selector : VectorSelector) : String :=
  selector.labelMatchers.foldl
    (fun acc lm =>
      if lm.name = ("alertname") ∧ lm.mtype ≠ MatchType.MatchRegexp ∧ lm.mtype ≠ MatchType.MatchNotRegexp then
        lm.value
      else acc)
    ("")

/-- First non-erroring alerting rule entry with the given alert name. -/
def findAlertingEntry (entries : List Entry) (alertname : String) : Option Entry :=
  entries.find? (fun e => e.alertingName = some alertname ∧ e.hasError = false)

/-- First non-erroring recording rule entry whose record name is the given
metric name. -/
def findRecordingEntry (entries : List Entry) (name : String) : Option Entry :=
  entries.find? (fun e => e.recordingName = some name ∧ e.hasError = false)

/-- Step 0 of the pipeline, the special case for the synthetic `ALERTS` /
`ALERTS_FOR_STATE` metrics: cross-check a constrained `alertname` against
the discovered alerting rules; no constraint yields no finding. -/
def alertsBranch (expr : PromQLExpr) (entries : List Entry) (selector : VectorSelector) : List Problem :=
  let alertname := alertnameFromSelector selector
  if alertname = ("") then []
  else
    match findAlertingEntry entries alertname with
    | some _ =>
      [{ fragment := selector.toStr
         lines := expr.lines
         reporter := seriesCheckName
         text := selector.toStr ++ (" metric is generated by alerts and found alerting rule named \x22") ++ alertname ++ ("\x22")
         severity := Severity.Information }]
    | none =>
      [{ fragment := selector.toStr
         lines := expr.lines
         reporter := seriesCheckName
         text := selector.toStr ++ (" metric is generated by alerts but didn't found any rule named \x22") ++ alertname ++ ("\x22")
         severity := Severity.Bug }]

/-- The three `min-age` directive key paths probed by `getMinAge`, in probe
order: reporter-global, bare-selector, selector-specific. -/
def minAgeKeys (selector : VectorSelector) : List (List String) :=
  let bareSelector := stripLabels selector
  [ [("rule/set"), seriesCheckName, ("min-age")],
    [("rule/set"), seriesCheckName ++ ("(") ++ bareSelector.toStr ++ (")"), ("min-age")],
    [("rule/set"), seriesCheckName ++ ("(") ++ selector.toStr ++ (")"), ("min-age")] ]

/-- The Warning finding produced when a `min-age` directive value fails to
parse as a duration (the source appends the parse error text, which the
`Option`-valued duration parser does not carry). -/
def minAgeParseProblem (rule : Rule) (cmt : Comment) : Problem :=
  { fragment := cmt.str
    lines := rule.lineRange
    reporter := seriesCheckName
    text := ("failed to parse pint comment as duration")
    severity := Severity.Warning }

/-- Embedding of `SeriesCheck.getMinAge`: starting from the 2-hour default,
probe the three directive keys in order; a parsed value overrides the
current one, a malformed value adds one Warning finding and keeps it. -/
def getMinAge (ctx : Ctx) (rule : Rule) (selector : VectorSelector) : Int × List Problem :=
  (minAgeKeys selector).foldl
    (fun acc key =>
      match rule.getComment key with
      | some cmt =>
        (match ctx.parseDuration cmt.value with
         | none => (acc.1, acc.2 ++ [minAgeParseProblem rule cmt])
         | some d => (d, acc.2))
      | none => acc)
    (nsPerHour * 2, [])

/-- Embedding of `SeriesCheck.isLabelValueIgnored`: any of the three
`ignore/label-value` directive comments disables the per-matcher check for
that label. -/
def isLabelValueIgnored (rule : Rule) (selector : VectorSelector) (labelName : String) : Bool :=
  let bareSelector := stripLabels selector
  [ ("rule/set ") ++ seriesCheckName ++ (" ignore/label-value ") ++ labelName,
    ("rule/set ") ++ seriesCheckName ++ ("(") ++ bareSelector.toStr ++ (") ignore/label-value ") ++ labelName,
    ("rule/set ") ++ seriesCheckName ++ ("(") ++ selector.toStr ++ (") ignore/label-value ") ++ labelName ].any rule.hasComment

/-- The `count(<selector>)` query text used by steps 1, 2 and 5-7. -/
def countQueryStr (vs : VectorSelector) : String :=
  ("count(") ++ vs.toStr ++ (")")

/-- The `count(<bare selector + label regex>) by (<label>)` query text of
the per-label loop (step 3). -/
def labelQueryStr (selector : VectorSelector) (name : String) : String :=
  let l0 := stripLabels selector
  let l : VectorSelector := { l0 with labelMatchers := l0.labelMatchers ++ [{ name := name, mtype := MatchType.MatchRegexp, value := (".+") : Matcher }] }
  ("count(") ++ l.toStr ++ (") by (") ++ name ++ (")")

/-- The non-`__name__` label names of the selector, one per matcher, as
collected before step 1. -/
def labelNames (selector : VectorSelector) : List String :=
  selector.labelMatchers.filterMap
    (fun lm => if lm.name ≠ metricNameLabel then some lm.name else none)

/-- The high-churn condition of step 3 (source line 209): as many distinct
label values as intervals, and mean interval life below half the window. -/
def highChurnCond (trs : timeRanges) (name : String) : Bool :=
  decide ((trs.labelValues name).length = trs.ranges.length) &&
    decide (trs.avgLife < Int.tdiv trs.duration 2)

/-- The Bug finding of step 3: the bare metric exists but no series carry
the required label. -/
def step3Problem (ctx : Ctx) (expr : PromQLExpr) (selector bareSelector : VectorSelector) (name : String) (trsLabelCount : timeRanges) : Problem :=
  { fragment := selector.toStr
    lines := expr.lines
    reporter := seriesCheckName
    text := ctx.promText ctx.promName trsLabelCount.uri ++ (" has \x22") ++ bareSelector.toStr ++ ("\x22 metric but there are no series with \x22") ++ name ++ ("\x22 label in the last ") ++ sinceDesc ctx trsLabelCount.tfrom
    severity := Severity.Bug }

/-- One iteration of the per-label loop (step 3): query
`count(<bare + label regex>) by (label)`; a query error appends one finding
and moves on, an empty grouped interval set appends the step-3 Bug, and
the high-churn condition records the label. -/
def labelLoopStep (ctx : Ctx) (expr : PromQLExpr) (selector bareSelector : VectorSelector) (acc : List Problem × List String) (name : String) : List Problem × List String :=
  match serieTimeRanges ctx (labelQueryStr selector name) rangeLookback rangeStep with
  | Except.error e => (acc.1 ++ [queryProblem ctx e selector.toStr expr], acc.2)
  | Except.ok trsLabelCount =>
    ((if (trsLabelCount.withLabelName name).length = 0 then
        acc.1 ++ [step3Problem ctx expr selector bareSelector name trsLabelCount]
      else acc.1),
     (if highChurnCond trsLabelCount name then acc.2 ++ [name] else acc.2))

/-- The Information / Bug finding of step 2: the bare metric had no series
in the lookback window; an Information finding when a recording rule
provides it, a Bug otherwise. -/
def step2Problem (ctx : Ctx) (expr : PromQLExpr) (entries : List Entry) (bareSelector : VectorSelector) (trs : timeRanges) : Problem :=
  match findRecordingEntry entries bareSelector.toStr with
  | some _ =>
    { fragment := bareSelector.toStr
      lines := expr.lines
      reporter := seriesCheckName
      text := ctx.promText ctx.promName trs.uri ++ (" didn't have any series for \x22") ++ bareSelector.toStr ++ ("\x22 metric in the last ") ++ sinceDesc ctx trs.tfrom ++ (" but found recording rule that generates it, skipping further checks")
      severity := Severity.Information }
  | none =>
    { fragment := bareSelector.toStr
      lines := expr.lines
      reporter := seriesCheckName
      text := ctx.promText ctx.promName trs.uri ++ (" didn't have any series for \x22") ++ bareSelector.toStr ++ ("\x22 metric in the last ") ++ sinceDesc ctx trs.tfrom
      severity := Severity.Bug }

/-- The Bug finding of step 4: the bare metric disappeared longer than
`min-age` ago. -/
def step4Problem (ctx : Ctx) (expr : PromQLExpr) (bareSelector : VectorSelector) (trs : timeRanges) : Problem :=
  { fragment := bareSelector.toStr
    lines := expr.lines
    reporter := seriesCheckName
    text := ctx.promText ctx.promName trs.uri ++ (" doesn't currently have \x22") ++ bareSelector.toStr ++ ("\x22, it was last present ") ++ sinceDesc ctx trs.newest ++ (" ago")
    severity := Severity.Bug }

/-- Body of step 4 once its interval-shape guard holds: resolve `min-age`
(parse failures append their Warnings), accept when the metric was present
within `min-age` of the window end, otherwise append the step-4 Bug. -/
def step4Run (ctx : Ctx) (expr : PromQLExpr) (rule : Rule) (selector bareSelector : VectorSelector) (trs : timeRanges) (problems : List Problem) : List Problem :=
  let ma := getMinAge ctx rule selector
  let problems2 := problems ++ ma.2
  if ¬ (trs.newest < trs.tuntil - ma.1) then problems2
  else problems2 ++ [step4Problem ctx expr bareSelector trs]

/-- The finding of step 5: no historical series match this matcher; Bug,
downgraded to Warning with a churn note when the matcher's label was
flagged high-churn in step 3. -/
def step5Problem (ctx : Ctx) (expr : PromQLExpr) (selector bareSelector : VectorSelector) (trs : timeRanges) (lm : Matcher) (highChurnLabels : List String) (trsLabel : timeRanges) : Problem :=
  let base := ctx.promText ctx.promName trsLabel.uri ++ (" has \x22") ++ bareSelector.toStr ++ ("\x22 metric with \x22") ++ lm.name ++ ("\x22 label but there are no series matching \x7b") ++ lm.toStr ++ ("\x7d in the last ") ++ sinceDesc ctx trs.tfrom
  if highChurnLabels.contains lm.name then
    { fragment := selector.toStr
      lines := expr.lines
      reporter := seriesCheckName
      text := base ++ (", \x22") ++ lm.name ++ ("\x22 looks like a high churn label")
      severity := Severity.Warning }
  else
    { fragment := selector.toStr
      lines := expr.lines
      reporter := seriesCheckName
      text := base
      severity := Severity.Bug }

/-- The Bug finding of step 6: series matching this matcher disappeared
longer than `min-age` ago. -/
def step6Problem (ctx : Ctx) (expr : PromQLExpr) (bareSelector labelSelector : VectorSelector) (trs : timeRanges) (lm : Matcher) (trsLabel : timeRanges) : Problem :=
  { fragment := labelSelector.toStr
    lines := expr.lines
    reporter := seriesCheckName
    text := ctx.promText ctx.promName trs.uri ++ (" has \x22") ++ bareSelector.toStr ++ ("\x22 metric but doesn't currently have series matching \x7b") ++ lm.toStr ++ ("\x7d, such series was last present ") ++ sinceDesc ctx trsLabel.newest ++ (" ago")
    severity := Severity.Bug }

/-- Body of step 6 once its interval-shape guard holds: resolve `min-age`,
accept within `min-age`, otherwise append the step-6 Bug. -/
def step6Run (ctx : Ctx) (expr : PromQLExpr) (rule : Rule) (selector bareSelector labelSelector : VectorSelector) (trs : timeRanges) (lm : Matcher) (trsLabel : timeRanges) (problems : List Problem) : List Problem :=
  let ma := getMinAge ctx rule selector
  let problems2 := problems ++ ma.2
  if ¬ (trsLabel.newest < trsLabel.tuntil - ma.1) then problems2
  else problems2 ++ [step6Problem ctx expr bareSelector labelSelector trs lm trsLabel]

/-- The Warning finding of step 7: series matching this matcher are only
sometimes present. -/
def step7Problem (ctx : Ctx) (expr : PromQLExpr) (selector bareSelector : VectorSelector) (trs : timeRanges) (lm : Matcher) (trsLabel : timeRanges) : Problem :=
  { fragment := selector.toStr
    lines := expr.lines
    reporter := seriesCheckName
    text := ("metric \x22") ++ bareSelector.toStr ++ ("\x22 with label \x7b") ++ lm.toStr ++ ("\x7d is only sometimes present on ") ++ ctx.promText ctx.promName trs.uri ++ (" with average life span of ") ++ ctx.humanizeDuration trsLabel.avgLife
    severity := Severity.Warning }

/-- The Warning finding of step 8: the bare metric is only sometimes
present. -/
def step8Problem (ctx : Ctx) (expr : PromQLExpr) (bareSelector : VectorSelector) (trs : timeRanges) : Problem :=
  { fragment := bareSelector.toStr
    lines := expr.lines
    reporter := seriesCheckName
    text := ("metric \x22") ++ bareSelector.toStr ++ ("\x22 is only sometimes present on ") ++ ctx.promText ctx.promName trs.uri ++ (" with average life span of ") ++ ctx.humanizeDuration trs.avgLife ++ (" in the last ") ++ sinceDesc ctx trs.tfrom
    severity := Severity.Warning }

/-- One iteration of the per-matcher loop (steps 5-7): skip `__name__`,
negative and ignored matchers; query `count(<name with this matcher>)`;
a query error appends one finding; then step 5 (no intervals), step 6
(single vanished interval) and step 7 (several intervals) in order. -/
def matcherStep (ctx : Ctx) (expr : PromQLExpr) (rule : Rule) (selector bareSelector : VectorSelector) (metricName : String) (trs : timeRanges) (highChurnLabels : List String) (problems : List Problem) (lm : Matcher) : List Problem :=
  if lm.name = metricNameLabel then problems
  else if lm.mtype ≠ MatchType.MatchEqual ∧ lm.mtype ≠ MatchType.MatchRegexp then problems
  else if isLabelValueIgnored rule selector lm.name then problems
  else
    let labelSelector : VectorSelector := { name := metricName, labelMatchers := [lm] }
    match serieTimeRanges ctx (countQueryStr labelSelector) rangeLookback rangeStep with
    | Except.error e => problems ++ [queryProblem ctx e labelSelector.toStr expr]
    | Except.ok trsLabel =>
      if trsLabel.ranges.length = 0 then
        problems ++ [step5Problem ctx expr selector bareSelector trs lm highChurnLabels trsLabel]
      else if trsLabel.ranges.length = 1 ∧
          ¬ (trsLabel.tuntil + (rangeLookback - 1) + rangeStep < trsLabel.oldest) ∧
          trsLabel.newest < trsLabel.tuntil - rangeStep then
        step6Run ctx expr rule selector bareSelector labelSelector trs lm trsLabel problems
      else if 1 < trsLabel.ranges.length then
        problems ++ [step7Problem ctx expr selector bareSelector trs lm trsLabel]
      else problems

/-- Steps 4-8 of the pipeline, entered only when the accumulated problem
list is empty after the per-label loop: the metric-disappearance check
(step 4, which stops the selector either way when its guard holds), the
per-matcher loop (steps 5-7), and the metric-intermittency check (step 8,
suppressed when the accumulated problem list is non-empty). -/
def steps4to8 (ctx : Ctx) (expr : PromQLExpr) (rule : Rule) (selector bareSelector : VectorSelector) (metricName : String) (trs : timeRanges) (problems : List Problem) (highChurnLabels : List String) : List Problem :=
  if trs.ranges.length = 1 ∧
      ¬ (trs.tfrom + rangeStep < trs.oldest) ∧
      trs.newest < trs.tuntil - rangeStep then
    step4Run ctx expr rule selector bareSelector trs problems
  else
    let problems2 := selector.labelMatchers.foldl
      (matcherStep ctx expr rule selector bareSelector metricName trs highChurnLabels) problems
    if 0 < problems2.length then problems2
    else if 1 < trs.ranges.length then problems2 ++ [step8Problem ctx expr bareSelector trs]
    else problems2

/-- Evaluation of one selector by `SeriesCheck.Check` (the body of the
selector loop, after de-duplication and the `disable` comment check),
appending to the accumulated problem list of the whole invocation. -/
def checkSelector (ctx : Ctx) (expr : PromQLExpr) (rule : Rule) (entries : List Entry) (problems : List Problem) (selector : VectorSelector) : List Problem :=
  let bareSelector := stripLabels selector
  let metricName := selectorMetricName selector
  if metricName = ("ALERTS") ∨ metricName = ("ALERTS_FOR_STATE") then
    problems ++ alertsBranch expr entries selector
  else
    match instantSeriesCount ctx (countQueryStr selector) with
    | Except.error e => problems ++ [queryProblem ctx e selector.toStr expr]
    | Except.ok cu =>
      if 0 < cu.1 then problems
      else
        match serieTimeRanges ctx (countQueryStr bareSelector) rangeLookback rangeStep with
        | Except.error e => problems ++ [queryProblem ctx e bareSelector.toStr expr]
        | Except.ok trs =>
          if trs.ranges.length = 0 then
            problems ++ [step2Problem ctx expr entries bareSelector trs]
          else
            let res := (labelNames selector).foldl (labelLoopStep ctx expr selector bareSelector) (problems, [])
            if 0 < res.1.length then res.1
            else steps4to8 ctx expr rule selector bareSelector metricName trs res.1 res.2

/-- Embedding of `SeriesCheck.Check`: return no findings on a syntax
error; otherwise walk the de-duplicated selectors, skip the ones disabled
by comment, and evaluate each with `checkSelector`, threading the
accumulated problem list through the whole invocation. -/
def check (ctx : Ctx) (rule : Rule) (expr : PromQLExpr) (entries : List Entry) : List Problem :=
  match expr.syntaxError with
  | some _ => []
  | none =>
    ((getSelectors expr.query).foldl
      (fun (st : List String × List Problem) selector =>
        if st.1.contains selector.toStr then st
        else
          let bareSelector := stripLabels selector
          if rule.hasComment (("disable ") ++ seriesCheckName ++ ("(") ++ selector.toStr ++ (")")) ∨
              rule.hasComment (("disable ") ++ seriesCheckName ++ ("(") ++ bareSelector.toStr ++ (")")) then
            (st.1 ++ [selector.toStr], st.2)
          else
            (st.1 ++ [selector.toStr], checkSelector ctx expr rule entries st.2 selector))
      ([], [])).2

/-! Derived views used by the theorems: closed forms of the loop bodies
above, each tied to the corresponding loop by a proved lemma below. -/

/-- Derived view of one step-3 iteration: the findings it appends for one
label name (a query-error finding, the step-3 Bug, or nothing). -/
def labelProblems (ctx : Ctx) (expr : PromQLExpr) (selector bareSelector : VectorSelector) (name : String) : List Problem :=
  match serieTimeRanges ctx (labelQueryStr selector name) rangeLookback rangeStep with
  | Except.error e => [queryProblem ctx e selector.toStr expr]
  | Except.ok trsLabelCount =>
    if (trsLabelCount.withLabelName name).length = 0 then
      [step3Problem ctx expr selector bareSelector name trsLabelCount]
    else []

/-- Derived view of one step-3 iteration: the high-churn labels it records
for one label name (the name itself or nothing). -/
def labelChurn (ctx : Ctx) (selector : VectorSelector) (name : String) : List String :=
  match serieTimeRanges ctx (labelQueryStr selector name) rangeLookback rangeStep with
  | Except.error _ => []
  | Except.ok trsLabelCount =>
    if highChurnCond trsLabelCount name then [name] else []

/-- The sample streams of a range query flattened to `(label-set, ts)`
pairs in processing order. -/
def flattenSamples (samples : List SampleStream) : List (LabelSet × Int) :=
  samples.flatMap (fun s => s.values.map (fun ts => (s.metric, ts)))

/-- The interval coalescing of `serieTimeRanges` as a fold over flattened
samples. -/
def buildRanges (step : Int) (samples : List (LabelSet × Int)) : List timeRange :=
  samples.foldl (fun acc p => addSample step acc p.1 p.2) []

/-- The intervals of a given exact label-set. -/
def rangesFor (L : LabelSet) (rs : List timeRange) : List timeRange :=
  rs.filter (fun r => r.labels = L)

/-- Strict ordering of two intervals: the first ends before the second
starts. -/
def disjBefore (a b : timeRange) : Prop :=
  a.stop < b.start

/-- Invariant of the coalescing fold, for one label-set `L` and the
largest timestamp `m` processed so far for `L`: the `L`-intervals are
pairwise ordered and disjoint, well-formed, and all start at or before
`m`. -/
def coalesceInv (L : LabelSet) (m : Int) (rs : List timeRange) : Prop :=
  (rangesFor L rs).Pairwise disjBefore ∧
    ∀ r ∈ rangesFor L rs, r.start ≤ r.stop ∧ r.start ≤ m

/-! Concrete fixtures: rules, backends and expressions used to evaluate the
embedded checker at specific inputs. -/

/-- A rule with no comments at all, on line 1. -/
def ruleNone : Rule :=
  { hasComment := fun _ => false
    getComment := fun _ => none
    lineRange := [1] }

/-- A selector `foo{job="x"}`. -/
def selFooJob : VectorSelector :=
  { name := ("foo"), labelMatchers := [{ name := ("job"), mtype := MatchType.MatchEqual, value := ("x") }] }

/-- A selector `ALERTS{alertname="X"}`. -/
def selAlertsEq : VectorSelector :=
  { name := ("ALERTS"), labelMatchers := [{ name := ("alertname"), mtype := MatchType.MatchEqual, value := ("X") }] }

/-- A selector `ALERTS{alertname!="HighLatency"}`: `alertname` constrained
only by a negative-equality matcher. -/
def selAlertsNe : VectorSelector :=
  { name := ("ALERTS"), labelMatchers := [{ name := ("alertname"), mtype := MatchType.MatchNotEqual, value := ("HighLatency") }] }

/-- A context whose instant queries return no series and whose range
queries return: two far-apart samples for the bare metric `foo`, one
`job`-labelled sample at window open for the grouped step-3 query, and for
the matcher query `count(foo{job="x"})` a single interval starting four
hours before window close (late in the seven-day window) and ending one
hour before it. -/
def ctxLateMatcher : Ctx :=
  { promName := ("prom")
    query := fun _ => Except.ok { uri := ("uri"), values := [] }
    rangeQuery := fun q _ _ =>
      if q = ("count(foo)") then
        Except.ok { uri := ("uri"), start := 0, stop := 604800000000000,
                    samples := [{ metric := [], values := [0, 3000000000000] }] }
      else if q = ("count(foo\x7bjob=~\x22.+\x22\x7d) by (job)") then
        Except.ok { uri := ("uri"), start := 0, stop := 604800000000000,
                    samples := [{ metric := [(("job"), ("x"))], values := [0] }] }
      else if q = ("count(foo\x7bjob=\x22x\x22\x7d)") then
        Except.ok { uri := ("uri"), start := 0, stop := 604800000000000,
                    samples := [{ metric := [(("job"), ("x"))], values := [590400000000000] }] }
      else
        Except.ok { uri := ("uri"), start := 0, stop := 604800000000000, samples := [] }
    textAndSeverityFromError := fun e _ _ d => (e, d)
    promText := fun n u => n ++ (" at ") ++ u
    humanizeDuration := fun _ => ("some time")
    parseDuration := fun _ => none
    now := 604800000000000 }

/-- A context whose instant queries return no series and whose range
queries see the bare metric `foo` as a single interval at window open that
vanishes immediately, with the `job` label historically present. -/
def ctxVanishedMetric : Ctx :=
  { promName := ("prom")
    query := fun _ => Except.ok { uri := ("uri"), values := [] }
    rangeQuery := fun q _ _ =>
      if q = ("count(foo)") then
        Except.ok { uri := ("uri"), start := 0, stop := 604800000000000,
                    samples := [{ metric := [], values := [0] }] }
      else if q = ("count(foo\x7bjob=~\x22.+\x22\x7d) by (job)") then
        Except.ok { uri := ("uri"), start := 0, stop := 604800000000000,
                    samples := [{ metric := [(("job"), ("x"))], values := [0] }] }
      else
        Except.ok { uri := ("uri"), start := 0, stop := 604800000000000, samples := [] }
    textAndSeverityFromError := fun e _ _ d => (e, d)
    promText := fun n u => n ++ (" at ") ++ u
    humanizeDuration := fun _ => ("some time")
    parseDuration := fun _ => none
    now := 604800000000000 }

/-- An expression holding the selectors `ALERTS{alertname="X"}` and
`foo{job="x"}`, in that order. -/
def exprAlertsThenFoo : PromQLExpr :=
  { syntaxError := none
    query := PromQLNode.mk none [PromQLNode.mk (some selAlertsEq) [], PromQLNode.mk (some selFooJob) []]
    lines := [1] }

/-- An expression holding only the selector `foo{job="x"}`. -/
def exprFooOnly : PromQLExpr :=
  { syntaxError := none
    query := PromQLNode.mk (some selFooJob) []
    lines := [1] }

/-- An expression holding only `ALERTS{alertname!="HighLatency"}`. -/
def exprAlertsNeOnly : PromQLExpr :=
  { syntaxError := none
    query := PromQLNode.mk (some selAlertsNe) []
    lines := [1] }

/-- An interval set over a window of 7201 whole seconds holding a single
`job`-labelled interval of 3600.6 seconds, which covers more than half the
window. -/
def trsOddWindow : timeRanges :=
  { uri := ("uri")
    tfrom := 0
    tuntil := 7201000000000
    step := 300000000000
    ranges := [{ labels := [(("job"), ("a"))], start := 0, stop := 3600600000000 }] }

/-- An expression holding only `ALERTS{alertname="X"}`. -/
def exprAlertsEqOnly : PromQLExpr :=
  { syntaxError := none
    query := PromQLNode.mk (some selAlertsEq) []
    lines := [1] }

/-- An expression carrying a syntax error. -/
def exprBroken : PromQLExpr :=
  { syntaxError := some ("1:4: parse error")
    query := PromQLNode.mk (some selFooJob) []
    lines := [1] }

/-- A discovered, non-erroring alerting rule named `X`. -/
def entryAlertX : Entry :=
  { path := ("rules.yml"), alertingName := some ("X"), recordingName := none, hasError := false }

/-- An arbitrary pre-existing finding, standing for a problem reported for
an earlier selector of the same invocation. -/
def probeProblem : Problem :=
  { fragment := ("earlier"), lines := [1], reporter := seriesCheckName, text := ("earlier finding"), severity := Severity.Bug }

/-- An interval set over a window of 7200 whole seconds (an even number of
seconds) holding a single `job`-labelled interval of 3700 seconds, which
covers more than half the window. -/
def trsEvenWindow : timeRanges :=
  { uri := ("uri")
    tfrom := 0
    tuntil := 7200000000000
    step := 300000000000
    ranges := [{ labels := [(("job"), ("a"))], start := 0, stop := 3700000000000 }] }

/-- The interval set that `ctxVanishedMetric` produces for `count(foo)`:
one interval at window open, gone immediately after. -/
def trsVan : timeRanges :=
  { uri := ("uri")
    tfrom := 0
    tuntil := 604800000000000
    step := rangeStep
    ranges := [{ labels := [], start := 0, stop := 300000000000 }] }

/-- The interval set of a bare metric that is only sometimes present: two
far-apart intervals over the seven-day window (the step-4 guard fails, so
evaluation proceeds to the per-matcher loop and step 8). -/
def trsInt : timeRanges :=
  { uri := ("uri")
    tfrom := 0
    tuntil := 604800000000000
    step := rangeStep
    ranges := [{ labels := [], start := 0, stop := 300000000000 },
               { labels := [], start := 3000000000000, stop := 3300000000000 }] }

/-- A context whose instant queries return no series, whose bare metric
`foo` has the two intervals of `trsInt`, whose `job` label is historically
present, and whose matcher query `count(foo{job="x"})` returns one
interval lasting until window close (so steps 5-7 all pass without a
finding and only step 8 can fire). -/
def ctxIntermittent : Ctx :=
  { promName := ("prom")
    query := fun _ => Except.ok { uri := ("uri"), values := [] }
    rangeQuery := fun q _ _ =>
      if q = ("count(foo)") then
        Except.ok { uri := ("uri"), start := 0, stop := 604800000000000,
                    samples := [{ metric := [], values := [0, 3000000000000] }] }
      else if q = ("count(foo\x7bjob=~\x22.+\x22\x7d) by (job)") then
        Except.ok { uri := ("uri"), start := 0, stop := 604800000000000,
                    samples := [{ metric := [(("job"), ("x"))], values := [0] }] }
      else if q = ("count(foo\x7bjob=\x22x\x22\x7d)") then
        Except.ok { uri := ("uri"), start := 0, stop := 604800000000000,
                    samples := [{ metric := [(("job"), ("x"))], values := [604500000000000] }] }
      else
        Except.ok { uri := ("uri"), start := 0, stop := 604800000000000, samples := [] }
    textAndSeverityFromError := fun e _ _ d => (e, d)
    promText := fun n u => n ++ (" at ") ++ u
    humanizeDuration := fun _ => ("some time")
    parseDuration := fun _ => none
    now := 604800000000000 }

/-- The context `ctxVanishedMetric` with the step-3 grouped query instead
returning no series at all, so the per-label loop itself produces a Bug
finding for the `job` label. -/
def ctxMissingLabel : Ctx :=
  { ctxVanishedMetric with
    rangeQuery := fun q _ _ =>
      if q = ("count(foo)") then
        Except.ok { uri := ("uri"), start := 0, stop := 604800000000000,
                    samples := [{ metric := [], values := [0] }] }
      else
        Except.ok { uri := ("uri"), start := 0, stop := 604800000000000, samples := [] } }

/-- A context whose every backend query fails. -/
def ctxFailing : Ctx :=
  { promName := ("prom")
    query := fun _ => Except.error ("connection refused")
    rangeQuery := fun _ _ _ => Except.error ("connection refused")
    textAndSeverityFromError := fun e _ _ d => (e, d)
    promText := fun n u => n ++ (" at ") ++ u
    humanizeDuration := fun _ => ("some time")
    parseDuration := fun _ => none
    now := 604800000000000 }

/-- A rule carrying one reporter-global `min-age` directive whose value is
`7d`. -/
def ruleMinAge : Rule :=
  { hasComment := fun _ => false
    getComment := fun k =>
      if k = [("rule/set"), seriesCheckName, ("min-age")] then
        some { value := ("7d"), str := ("min-age comment") }
      else none
    lineRange := [1] }

/-- The context `ctxVanishedMetric` with a duration parser accepting `7d`
as seven days. -/
def ctxVanishedMinAge : Ctx :=
  { ctxVanishedMetric with
    parseDuration := fun s => if s = ("7d") then some 604800000000000 else none }

/-! Helper lemmas tying the derived views to the loops of the pipeline. -/

/-- One step-3 iteration appends exactly its derived findings and churn
records to the accumulator. -/
theorem labelLoopStep_eq (ctx : Ctx) (expr : PromQLExpr) (selector bareSelector : VectorSelector) (acc : List Problem × List String) (name : String) :
    labelLoopStep ctx expr selector bareSelector acc name =
      (acc.1 ++ labelProblems ctx expr selector bareSelector name,
       acc.2 ++ labelChurn ctx selector name) := by
  unfold labelLoopStep labelProblems labelChurn
  cases h : serieTimeRanges ctx (labelQueryStr selector name) rangeLookback rangeStep with
  | error e => simp
  | ok t =>
    by_cases h1 : (t.withLabelName name).length = 0 <;>
      by_cases h2 : highChurnCond t name <;> simp [h1, h2]

/-- The whole per-label loop (step 3) appends exactly the concatenated
derived findings and churn records of its labels. -/
theorem labelLoop_eq (ctx : Ctx) (expr : PromQLExpr) (selector bareSelector : VectorSelector) (names : List String) :
    ∀ acc : List Problem × List String,
      names.foldl (labelLoopStep ctx expr selector bareSelector) acc =
        (acc.1 ++ names.flatMap (labelProblems ctx expr selector bareSelector),
         acc.2 ++ names.flatMap (labelChurn ctx selector)) := by
  induction names with
  | nil => intro acc; simp
  | cons n ns ih =>
    intro acc
    rw [List.foldl_cons, labelLoopStep_eq, ih]
    simp

/-- The `min-age` resolution fold in closed form: the resolved value is the
last successfully parsed directive value (or the initial one), and the
appended problems are exactly one per malformed directive, in probe order. -/
theorem getMinAge_foldl (ctx : Ctx) (rule : Rule) (keys : List (List String)) :
    ∀ (v : Int) (ps : List Problem),
      keys.foldl
        (fun acc key =>
          match rule.getComment key with
          | some cmt =>
            (match ctx.parseDuration cmt.value with
             | none => (acc.1, acc.2 ++ [minAgeParseProblem rule cmt])
             | some d => (d, acc.2))
          | none => acc)
        (v, ps) =
      ((keys.filterMap (fun k => (rule.getComment k).bind (fun c => ctx.parseDuration c.value))).getLastD v,
       ps ++ keys.flatMap (fun k =>
         match rule.getComment k with
         | some c =>
           (match ctx.parseDuration c.value with
            | none => [minAgeParseProblem rule c]
            | some _ => [])
         | none => [])) := by
  induction keys with
  | nil => intro v ps; simp
  | cons k ks ih =>
    intro v ps
    rw [List.foldl_cons]
    cases hc : rule.getComment k with
    | none =>
      have hf : (fun kk : List String => (rule.getComment kk).bind fun cc => ctx.parseDuration cc.value) k = none := by
        simp only [hc]
        rfl
      simp only [hc]
      rw [ih, @List.filterMap_cons_none _ _ (fun kk : List String => (rule.getComment kk).bind fun cc => ctx.parseDuration cc.value) k ks hf, List.flatMap_cons]
      simp [hc]
    | some c =>
      cases hp : ctx.parseDuration c.value with
      | none =>
        have hf : (fun kk : List String => (rule.getComment kk).bind fun cc => ctx.parseDuration cc.value) k = none := by
          simp only [hc]
          simpa using hp
        simp only [hc, hp]
        rw [ih, @List.filterMap_cons_none _ _ (fun kk : List String => (rule.getComment kk).bind fun cc => ctx.parseDuration cc.value) k ks hf, List.flatMap_cons]
        simp [hc, hp]
      | some d =>
        have hf : (fun kk : List String => (rule.getComment kk).bind fun cc => ctx.parseDuration cc.value) k = some d := by
          simp only [hc]
          simpa using hp
        simp only [hc, hp]
        rw [ih, @List.filterMap_cons_some _ _ (fun kk : List String => (rule.getComment kk).bind fun cc => ctx.parseDuration cc.value) k ks d hf, List.getLastD_cons, List.flatMap_cons]
        simp [hc, hp]

/-- C6: `getMinAge` starts from the 2-hour default and probes, in order,
the reporter-global, bare-selector and selector-specific `min-age`
directives, each later successfully parsed value overriding the previous
one; each malformed directive adds exactly one Warning finding and leaves
the previously resolved value in effect. -/
theorem c6_min_age_precedence (ctx : Ctx) (rule : Rule) (selector : VectorSelector) :
    getMinAge ctx rule selector =
      (((minAgeKeys selector).filterMap (fun k => (rule.getComment k).bind (fun c => ctx.parseDuration c.value))).getLastD (nsPerHour * 2),
       (minAgeKeys selector).flatMap (fun k =>
         match rule.getComment k with
         | some c =>
           (match ctx.parseDuration c.value with
            | none => [minAgeParseProblem rule c]
            | some _ => [])
         | none => [])) ∧
    (∀ cmt : Comment, (minAgeParseProblem rule cmt).severity = Severity.Warning) := by
  constructor
  · unfold getMinAge
    rw [getMinAge_foldl]
    simp
  · intro cmt
    rfl

/-- C10: when the rule expression carries a syntax error, `Check` returns
the empty finding list, for every backend, comment store and entry list
(so in particular no query or directive lookup can influence the result). -/
theorem c10_syntax_error (ctx : Ctx) (rule : Rule) (expr : PromQLExpr) (entries : List Entry) (err : String) (h : expr.syntaxError = some err) :
    check ctx rule expr entries = [] := by
  unfold check
  rw [h]

/-- Witness for C10: a broken expression against an always-failing backend
still yields the empty finding list. -/
theorem c10_syntax_error_witness : check ctxFailing ruleNone exprBroken [] = [] :=
  c10_syntax_error ctxFailing ruleNone exprBroken [] ("1:4: parse error") rfl

/-- A last-wins fold over matchers in closed form: the value of the last
matcher satisfying the predicate, or the initial string. -/
theorem foldl_lastWins (P : Matcher → Prop) [DecidablePred P] (l : List Matcher) :
    ∀ s : String,
      l.foldl (fun acc lm => if P lm then lm.value else acc) s =
        ((l.filter (fun lm => decide (P lm))).map Matcher.value).getLastD s := by
  induction l with
  | nil => intro s; simp
  | cons lm l ih =>
    intro s
    rw [List.foldl_cons]
    by_cases h : P lm
    · rw [if_pos h, ih, List.filter_cons_of_pos (by simpa using h), List.map_cons, List.getLastD_cons]
    · rw [if_neg h, ih, List.filter_cons_of_neg (by simpa using h)]

/-- C3, counterexample: the selector `ALERTS{alertname!="HighLatency"}`
constrains `alertname` with no equality matcher, yet `Check` produces a
(Bug) finding for it, cross-checking the name of the negative matcher
against the (empty) rule list. -/
theorem c3_counterexample :
    (checkSelector ctxVanishedMetric exprAlertsNeOnly ruleNone [] [] selAlertsNe).map Problem.severity = [Severity.Bug] ∧
    (∀ lm ∈ selAlertsNe.labelMatchers, lm.mtype ≠ MatchType.MatchEqual) := by
  decide

/-- C3, amended: for an `ALERTS` / `ALERTS_FOR_STATE` selector the result
is the accumulated findings plus the alerts cross-check alone (independent
of the backend, which is never queried); the cross-check yields no finding
when the resolved `alertname` value is empty, and otherwise exactly one
finding — Information when a non-erroring alerting rule with that name
exists, Bug when none does; the resolved value is that of the last
`alertname` matcher that is neither a regexp nor a negated-regexp matcher
(so equality and negative-equality matchers both trigger the cross-check). -/
theorem c3_alerts_branch (ctx : Ctx) (expr : PromQLExpr) (rule : Rule) (entries : List Entry) (problems : List Problem) (selector : VectorSelector)
    (h : selectorMetricName selector = ("ALERTS") ∨ selectorMetricName selector = ("ALERTS_FOR_STATE")) :
    checkSelector ctx expr rule entries problems selector = problems ++ alertsBranch expr entries selector ∧
    (alertnameFromSelector selector = ("") → alertsBranch expr entries selector = []) ∧
    (alertnameFromSelector selector ≠ ("") →
      (alertsBranch expr entries selector).map Problem.severity =
        [if (findAlertingEntry entries (alertnameFromSelector selector)).isSome then Severity.Information else Severity.Bug]) ∧
    alertnameFromSelector selector =
      ((selector.labelMatchers.filter (fun lm => decide (lm.name = ("alertname") ∧ lm.mtype ≠ MatchType.MatchRegexp ∧ lm.mtype ≠ MatchType.MatchNotRegexp))).map Matcher.value).getLastD ("") := by
  refine ⟨?_, ?_, ?_, ?_⟩
  · simp only [checkSelector]
    rw [if_pos h]
  · intro h0
    unfold alertsBranch
    rw [if_pos h0]
  · intro h0
    unfold alertsBranch
    rw [if_neg h0]
    cases hcase : findAlertingEntry entries (alertnameFromSelector selector) <;> simp [hcase]
  · unfold alertnameFromSelector
    exact foldl_lastWins _ _ _

/-- Witness for C3: `ALERTS{alertname="X"}` with a sibling alerting rule
named `X`, against an always-failing backend, yields exactly the one
Information finding of the cross-check. -/
theorem c3_alerts_branch_witness :
    checkSelector ctxFailing exprAlertsEqOnly ruleNone [entryAlertX] [] selAlertsEq = [] ++ alertsBranch exprAlertsEqOnly [entryAlertX] selAlertsEq ∧
    (alertsBranch exprAlertsEqOnly [entryAlertX] selAlertsEq).map Problem.severity = [Severity.Information] := by
  have h := c3_alerts_branch ctxFailing exprAlertsEqOnly ruleNone [entryAlertX] [] selAlertsEq (Or.inl rfl)
  refine ⟨h.1, ?_⟩
  simpa using h.2.2.1 (by decide)

/-- C5, counterexample: over a window of 7201 whole seconds, a single
interval of 3600.6 seconds covers more than half the window yet is flagged
high-churn, because `avgLife` truncates interval lengths to whole seconds
(3600 s) before comparing with half the window (3600.5 s). -/
theorem c5_counterexample :
    trsOddWindow.ranges.length = 1 ∧
    (∀ r ∈ trsOddWindow.ranges, trsOddWindow.duration < 2 * (r.stop - r.start)) ∧
    highChurnCond trsOddWindow ("job") = true := by
  decide

/-- C5, amended: a label is flagged high-churn exactly when the number of
distinct label values equals the number of intervals and the (second-
truncated) average interval life is strictly below half the window; and a
single interval covering more than half the window is never flagged
provided the window duration is an even number of whole seconds (as the
fixed 7-day window of `Check` is). -/
theorem c5_high_churn :
    (∀ (trs : timeRanges) (name : String),
      highChurnCond trs name = true ↔
        ((trs.labelValues name).length = trs.ranges.length ∧ trs.avgLife < Int.tdiv trs.duration 2)) ∧
    (∀ (trs : timeRanges) (name : String) (r : timeRange) (k : Int),
      trs.ranges = [r] → 0 ≤ k → trs.duration = 2 * (nsPerSecond * k) →
      trs.duration < 2 * (r.stop - r.start) → highChurnCond trs name = false) := by
  constructor
  · intro trs name
    simp [highChurnCond]
  · intro trs name r k h1 hk h2 h3
    have hpos : (0 : Int) < nsPerSecond := by norm_num [nsPerSecond]
    have hlen : nsPerSecond * k < r.stop - r.start := by
      have h4 := h3
      rw [h2] at h4
      omega
    have hnnlen : (0 : Int) ≤ r.stop - r.start :=
      le_trans (mul_nonneg (le_of_lt hpos) hk) (le_of_lt hlen)
    have havg : trs.avgLife = nsPerSecond * Int.tdiv (r.stop - r.start) nsPerSecond := by
      simp [timeRanges.avgLife, h1]
    have hdu : Int.tdiv trs.duration 2 = nsPerSecond * k := by
      rw [h2]
      exact Int.mul_tdiv_cancel_left _ (by norm_num)
    have hK : k ≤ Int.tdiv (r.stop - r.start) nsPerSecond := by
      rw [Int.tdiv_eq_ediv hnnlen (le_of_lt hpos), Int.le_ediv_iff_mul_le hpos]
      calc k * nsPerSecond = nsPerSecond * k := mul_comm _ _
        _ ≤ r.stop - r.start := le_of_lt hlen
    have hge : Int.tdiv trs.duration 2 ≤ trs.avgLife := by
      rw [havg, hdu]
      exact mul_le_mul_of_nonneg_left hK (le_of_lt hpos)
    have hB : decide (trs.avgLife < Int.tdiv trs.duration 2) = false :=
      decide_eq_false (not_lt.mpr hge)
    unfold highChurnCond
    rw [hB, Bool.and_false]

/-- Witness for C5: over the even 7200-second window a single 3700-second
interval (more than half the window) is not flagged, and the iff form of
the condition holds at the odd-window fixture. -/
theorem c5_high_churn_witness :
    highChurnCond trsEvenWindow ("job") = false ∧
    trsEvenWindow.duration < 2 * (3700000000000 - 0) ∧
    (highChurnCond trsOddWindow ("job") = true ↔
      ((trsOddWindow.labelValues ("job")).length = trsOddWindow.ranges.length ∧
        trsOddWindow.avgLife < Int.tdiv trsOddWindow.duration 2)) := by
  refine ⟨?_, by decide, c5_high_churn.1 trsOddWindow ("job")⟩
  exact c5_high_churn.2 trsEvenWindow ("job")
    ({ labels := [(("job"), ("a"))], start := 0, stop := 3700000000000 }) 3600
    rfl (by decide) (by decide) (by decide)

/-- Unfolding of one selector evaluation that reaches the per-label loop:
no synthetic metric, an instant count of zero, and a non-empty historical
interval set for the bare metric. The result is the accumulated problems
plus the step-3 findings when that list is non-empty, and steps 4-8
otherwise. -/
theorem checkSelector_step3_eq (ctx : Ctx) (expr : PromQLExpr) (rule : Rule) (entries : List Entry)
    (problems : List Problem) (selector : VectorSelector) (u : String) (trs : timeRanges)
    (h0 : ¬ (selectorMetricName selector = ("ALERTS") ∨ selectorMetricName selector = ("ALERTS_FOR_STATE")))
    (h1 : instantSeriesCount ctx (countQueryStr selector) = Except.ok (0, u))
    (h2 : serieTimeRanges ctx (countQueryStr (stripLabels selector)) rangeLookback rangeStep = Except.ok trs)
    (h3 : trs.ranges ≠ []) :
    checkSelector ctx expr rule entries problems selector =
      (if 0 < (problems ++ (labelNames selector).flatMap (labelProblems ctx expr selector (stripLabels selector))).length then
        problems ++ (labelNames selector).flatMap (labelProblems ctx expr selector (stripLabels selector))
      else
        steps4to8 ctx expr rule selector (stripLabels selector) (selectorMetricName selector) trs
          (problems ++ (labelNames selector).flatMap (labelProblems ctx expr selector (stripLabels selector)))
          ((labelNames selector).flatMap (labelChurn ctx selector))) := by
  have hlen0 : ¬ (trs.ranges.length = 0) := by
    simpa [List.length_eq_zero] using h3
  simp only [checkSelector, if_neg h0, h1, h2, labelLoop_eq]
  simp [hlen0]

/-- One iteration of the per-matcher loop only ever appends findings past
the accumulated problem list. -/
theorem matcherStep_append (ctx : Ctx) (expr : PromQLExpr) (rule : Rule)
    (selector bareSelector : VectorSelector) (metricName : String) (trs : timeRanges)
    (churn : List String) (problems : List Problem) (lm : Matcher) :
    ∃ t, matcherStep ctx expr rule selector bareSelector metricName trs churn problems lm = problems ++ t := by
  unfold matcherStep
  by_cases h1 : lm.name = metricNameLabel
  · rw [if_pos h1]
    exact ⟨[], by simp⟩
  · rw [if_neg h1]
    by_cases h2 : lm.mtype ≠ MatchType.MatchEqual ∧ lm.mtype ≠ MatchType.MatchRegexp
    · rw [if_pos h2]
      exact ⟨[], by simp⟩
    · rw [if_neg h2]
      by_cases h3 : isLabelValueIgnored rule selector lm.name = true
      · rw [if_pos h3]
        exact ⟨[], by simp⟩
      · rw [if_neg h3]
        dsimp only
        cases hq : serieTimeRanges ctx (countQueryStr { name := metricName, labelMatchers := [lm] }) rangeLookback rangeStep with
        | error e =>
          exact ⟨[queryProblem ctx e (VectorSelector.toStr { name := metricName, labelMatchers := [lm] }) expr], rfl⟩
        | ok trsLabel =>
          dsimp only
          by_cases h4 : trsLabel.ranges.length = 0
          · rw [if_pos h4]
            exact ⟨[step5Problem ctx expr selector bareSelector trs lm churn trsLabel], rfl⟩
          · rw [if_neg h4]
            by_cases h5 : trsLabel.ranges.length = 1 ∧
                ¬ (trsLabel.tuntil + (rangeLookback - 1) + rangeStep < trsLabel.oldest) ∧
                trsLabel.newest < trsLabel.tuntil - rangeStep
            · rw [if_pos h5]
              unfold step6Run
              by_cases h6 : ¬ (trsLabel.newest < trsLabel.tuntil - (getMinAge ctx rule selector).1)
              · rw [if_pos h6]
                exact ⟨(getMinAge ctx rule selector).2, rfl⟩
              · rw [if_neg h6]
                exact ⟨(getMinAge ctx rule selector).2 ++
                    [step6Problem ctx expr bareSelector { name := metricName, labelMatchers := [lm] } trs lm trsLabel],
                  by rw [List.append_assoc]⟩
            · rw [if_neg h5]
              by_cases h7 : 1 < trsLabel.ranges.length
              · rw [if_pos h7]
                exact ⟨[step7Problem ctx expr selector bareSelector trs lm trsLabel], rfl⟩
              · rw [if_neg h7]
                exact ⟨[], by simp⟩

/-- The whole per-matcher loop only ever appends findings past the
accumulated problem list; in particular a non-empty accumulator stays
non-empty through the loop. -/
theorem matcherLoop_append (ctx : Ctx) (expr : PromQLExpr) (rule : Rule)
    (selector bareSelector : VectorSelector) (metricName : String) (trs : timeRanges)
    (churn : List String) :
    ∀ (lms : List Matcher) (ps : List Problem),
      ∃ t, lms.foldl (matcherStep ctx expr rule selector bareSelector metricName trs churn) ps = ps ++ t := by
  intro lms
  induction lms with
  | nil => intro ps; exact ⟨[], by simp⟩
  | cons lm lms ih =>
    intro ps
    rw [List.foldl_cons]
    rcases matcherStep_append ctx expr rule selector bareSelector metricName trs churn ps lm with ⟨t1, h1⟩
    rcases ih (ps ++ t1) with ⟨t2, h2⟩
    exact ⟨t1 ++ t2, by rw [h1, h2, List.append_assoc]⟩

/-- C1, counterexample: with the two selectors `ALERTS{alertname="X"}` and
`foo{job="x"}` in one expression, the alerts finding of the first selector
suppresses steps 4-8 for the second one even though the second selector's
per-label loop produced no finding: the combined run yields only the
alerts fragment, while the same backend state with `foo{job="x"}` alone
yields the step-4 disappearance Bug on the bare fragment `foo`. -/
theorem c1_counterexample :
    (check ctxVanishedMetric ruleNone exprAlertsThenFoo []).map Problem.fragment = [selAlertsEq.toStr] ∧
    (labelNames selFooJob).flatMap (labelProblems ctxVanishedMetric exprAlertsThenFoo selFooJob (stripLabels selFooJob)) = [] ∧
    (check ctxVanishedMetric ruleNone exprFooOnly []).map Problem.fragment = [(stripLabels selFooJob).toStr] ∧
    (check ctxVanishedMetric ruleNone exprFooOnly []).map Problem.severity = [Severity.Bug] := by
  refine ⟨by decide, by decide, by decide, by decide⟩

/-- C1, amended: for a selector that reaches the per-label loop, steps 4-8
are suppressed exactly when the problem list accumulated over the whole
`Check` invocation is non-empty after that loop: any finding accumulated
for an earlier selector suppresses them even when the current selector's
per-label loop produced nothing, step-3 findings alone (with an empty
prior accumulator) suppress them just the same, and with an empty list
after the loop steps 4-8 run; after the per-matcher loop the same global
list gates step 8 — a non-empty accumulator survives the loop and
suppresses the step-8 Warning, which is appended exactly when the list is
still empty and the bare metric has more than one interval. -/
theorem c1_suppression_is_global (ctx : Ctx) (expr : PromQLExpr) (rule : Rule) (entries : List Entry)
    (problems : List Problem) (selector : VectorSelector) (u : String) (trs : timeRanges)
    (h0 : ¬ (selectorMetricName selector = ("ALERTS") ∨ selectorMetricName selector = ("ALERTS_FOR_STATE")))
    (h1 : instantSeriesCount ctx (countQueryStr selector) = Except.ok (0, u))
    (h2 : serieTimeRanges ctx (countQueryStr (stripLabels selector)) rangeLookback rangeStep = Except.ok trs)
    (h3 : trs.ranges ≠ []) :
    (problems ++ (labelNames selector).flatMap (labelProblems ctx expr selector (stripLabels selector)) ≠ [] →
      checkSelector ctx expr rule entries problems selector =
        problems ++ (labelNames selector).flatMap (labelProblems ctx expr selector (stripLabels selector))) ∧
    (problems = [] →
      (labelNames selector).flatMap (labelProblems ctx expr selector (stripLabels selector)) ≠ [] →
      checkSelector ctx expr rule entries problems selector =
        (labelNames selector).flatMap (labelProblems ctx expr selector (stripLabels selector))) ∧
    (problems = [] →
      (labelNames selector).flatMap (labelProblems ctx expr selector (stripLabels selector)) = [] →
      checkSelector ctx expr rule entries problems selector =
        steps4to8 ctx expr rule selector (stripLabels selector) (selectorMetricName selector) trs []
          ((labelNames selector).flatMap (labelChurn ctx selector))) ∧
    (∀ (ps : List Problem) (churn : List String),
      (ps ≠ [] →
        selector.labelMatchers.foldl
          (matcherStep ctx expr rule selector (stripLabels selector) (selectorMetricName selector) trs churn) ps ≠ []) ∧
      (¬ (trs.ranges.length = 1 ∧ ¬ (trs.tfrom + rangeStep < trs.oldest) ∧ trs.newest < trs.tuntil - rangeStep) →
        selector.labelMatchers.foldl
          (matcherStep ctx expr rule selector (stripLabels selector) (selectorMetricName selector) trs churn) ps ≠ [] →
        steps4to8 ctx expr rule selector (stripLabels selector) (selectorMetricName selector) trs ps churn =
          selector.labelMatchers.foldl
            (matcherStep ctx expr rule selector (stripLabels selector) (selectorMetricName selector) trs churn) ps) ∧
      (¬ (trs.ranges.length = 1 ∧ ¬ (trs.tfrom + rangeStep < trs.oldest) ∧ trs.newest < trs.tuntil - rangeStep) →
        selector.labelMatchers.foldl
          (matcherStep ctx expr rule selector (stripLabels selector) (selectorMetricName selector) trs churn) ps = [] →
        steps4to8 ctx expr rule selector (stripLabels selector) (selectorMetricName selector) trs ps churn =
          (if 1 < trs.ranges.length then [step8Problem ctx expr (stripLabels selector) trs] else []))) := by
  rw [checkSelector_step3_eq ctx expr rule entries problems selector u trs h0 h1 h2 h3]
  refine ⟨?_, ?_, ?_, ?_⟩
  · intro hp
    rw [if_pos (List.length_pos.mpr hp)]
  · intro hp hm
    subst hp
    simp only [List.nil_append]
    rw [if_pos (List.length_pos.mpr hm)]
  · intro hp hm
    subst hp
    rw [hm]
    simp
  · intro ps churn
    refine ⟨?_, ?_, ?_⟩
    · intro hps heq
      rcases matcherLoop_append ctx expr rule selector (stripLabels selector) (selectorMetricName selector) trs churn
        selector.labelMatchers ps with ⟨t, ht⟩
      rw [ht] at heq
      exact hps (List.append_eq_nil.mp heq).1
    · intro hguard hfold
      unfold steps4to8
      rw [if_neg hguard]
      dsimp only
      rw [if_pos (List.length_pos.mpr hfold)]
    · intro hguard hfold
      unfold steps4to8
      rw [if_neg hguard]
      dsimp only
      rw [hfold]
      simp

/-- Witness for C1: a pre-existing finding of an earlier selector stops
`foo{job="x"}` after its clean per-label loop; a step-3 Bug alone (empty
prior accumulator) does the same; with an empty list the evaluation
proceeds to steps 4-8; after the per-matcher loop an inherited finding
suppresses the step-8 Warning of an intermittent bare metric, which fires
exactly when the list is still empty. -/
theorem c1_suppression_is_global_witness :
    checkSelector ctxVanishedMetric exprFooOnly ruleNone [] [probeProblem] selFooJob =
      [probeProblem] ++ (labelNames selFooJob).flatMap (labelProblems ctxVanishedMetric exprFooOnly selFooJob (stripLabels selFooJob)) ∧
    checkSelector ctxMissingLabel exprFooOnly ruleNone [] [] selFooJob =
      (labelNames selFooJob).flatMap (labelProblems ctxMissingLabel exprFooOnly selFooJob (stripLabels selFooJob)) ∧
    checkSelector ctxVanishedMetric exprFooOnly ruleNone [] [] selFooJob =
      steps4to8 ctxVanishedMetric exprFooOnly ruleNone selFooJob (stripLabels selFooJob) (selectorMetricName selFooJob)
        trsVan [] ((labelNames selFooJob).flatMap (labelChurn ctxVanishedMetric selFooJob)) ∧
    steps4to8 ctxIntermittent exprFooOnly ruleNone selFooJob (stripLabels selFooJob) (selectorMetricName selFooJob)
        trsInt [probeProblem] [] = [probeProblem] ∧
    steps4to8 ctxIntermittent exprFooOnly ruleNone selFooJob (stripLabels selFooJob) (selectorMetricName selFooJob)
        trsInt [] [] = [step8Problem ctxIntermittent exprFooOnly (stripLabels selFooJob) trsInt] := by
  refine ⟨?_, ?_, ?_, ?_, ?_⟩
  · exact (c1_suppression_is_global ctxVanishedMetric exprFooOnly ruleNone [] [probeProblem] selFooJob ("uri")
      trsVan (by decide) rfl rfl (by decide)).1 (by decide)
  · exact (c1_suppression_is_global ctxMissingLabel exprFooOnly ruleNone [] [] selFooJob ("uri")
      trsVan (by decide) rfl rfl (by decide)).2.1 rfl (by decide)
  · exact (c1_suppression_is_global ctxVanishedMetric exprFooOnly ruleNone [] [] selFooJob ("uri")
      trsVan (by decide) rfl rfl (by decide)).2.2.1 rfl (by decide)
  · have h := (c1_suppression_is_global ctxIntermittent exprFooOnly ruleNone [] [] selFooJob ("uri")
      trsInt (by decide) rfl rfl (by decide)).2.2.2 [probeProblem] []
    have hfold := h.1 (by decide)
    rw [h.2.1 (by decide) hfold]
    decide
  · have h := (c1_suppression_is_global ctxIntermittent exprFooOnly ruleNone [] [] selFooJob ("uri")
      trsInt (by decide) rfl rfl (by decide)).2.2.2 [] []
    rw [h.2.2 (by decide) (by decide)]
    rw [if_pos (by decide)]

/-- C2, code evaluation at the failing input: the matcher query for
`foo{job="x"}` yields a single interval that starts 6.8 days after window
open (far from window open) and ends one hour before window close, yet
`Check` emits the step-6 matcher-disappearance Bug for that matcher — the
window-open guard of step 6 compares `oldest` against
`until + (lookback - 1ns) + step`, a time beyond the window end, and is
therefore satisfied by every interval. -/
theorem c2_code_evaluation :
    serieTimeRanges ctxLateMatcher (countQueryStr { name := ("foo"), labelMatchers := [{ name := ("job"), mtype := MatchType.MatchEqual, value := ("x") }] }) rangeLookback rangeStep =
      Except.ok { uri := ("uri"), tfrom := 0, tuntil := 604800000000000, step := rangeStep,
                  ranges := [{ labels := [(("job"), ("x"))], start := 590400000000000, stop := 590700000000000 }] } ∧
    (0 : Int) + rangeStep < 590400000000000 ∧
    (check ctxLateMatcher ruleNone exprFooOnly []).map Problem.severity = [Severity.Bug] ∧
    (check ctxLateMatcher ruleNone exprFooOnly []).map Problem.fragment = [selFooJob.toStr] ∧
    (check ctxLateMatcher ruleNone exprFooOnly []).map Problem.text =
      [("prom at uri has \x22foo\x22 metric but doesn't currently have series matching \x7bjob=\x22x\x22\x7d, such series was last present some time ago")] := by
  refine ⟨rfl, by decide, by decide, by decide, by decide⟩

/-- C7: when step 4 applies (single historical interval for the bare
metric, starting at or near window open and ending before window close)
and the `min-age` directives resolve cleanly, the selector yields no
finding when the interval ends within the resolved `min-age` of the window
end, and exactly one Bug finding otherwise, whose message reports how long
ago the metric was last present. -/
theorem c7_metric_disappearance (ctx : Ctx) (expr : PromQLExpr) (rule : Rule) (entries : List Entry)
    (selector : VectorSelector) (u : String) (trs : timeRanges) (ma : Int)
    (h0 : ¬ (selectorMetricName selector = ("ALERTS") ∨ selectorMetricName selector = ("ALERTS_FOR_STATE")))
    (h1 : instantSeriesCount ctx (countQueryStr selector) = Except.ok (0, u))
    (h2 : serieTimeRanges ctx (countQueryStr (stripLabels selector)) rangeLookback rangeStep = Except.ok trs)
    (h3 : (labelNames selector).flatMap (labelProblems ctx expr selector (stripLabels selector)) = [])
    (h4 : trs.ranges.length = 1)
    (h5 : ¬ (trs.tfrom + rangeStep < trs.oldest))
    (h6 : trs.newest < trs.tuntil - rangeStep)
    (h7 : getMinAge ctx rule selector = (ma, [])) :
    checkSelector ctx expr rule entries [] selector =
      (if trs.newest < trs.tuntil - ma then [step4Problem ctx expr (stripLabels selector) trs] else []) ∧
    (step4Problem ctx expr (stripLabels selector) trs).severity = Severity.Bug ∧
    (step4Problem ctx expr (stripLabels selector) trs).text =
      ctx.promText ctx.promName trs.uri ++ (" doesn't currently have \x22") ++ (stripLabels selector).toStr ++ ("\x22, it was last present ") ++ sinceDesc ctx trs.newest ++ (" ago") := by
  have h3ne : trs.ranges ≠ [] := by
    intro hx
    rw [hx] at h4
    exact absurd h4 (by decide)
  refine ⟨?_, rfl, rfl⟩
  rw [checkSelector_step3_eq ctx expr rule entries [] selector u trs h0 h1 h2 h3ne, h3]
  rw [if_neg (by simp)]
  unfold steps4to8
  rw [if_pos ⟨h4, h5, h6⟩]
  unfold step4Run
  rw [h7]
  by_cases hcase : trs.newest < trs.tuntil - ma
  · rw [if_neg (not_not_intro hcase), if_pos hcase]
    simp
  · rw [if_pos hcase, if_neg hcase]
    simp

/-- Witness for C7: the metric that vanished right after window open
yields exactly the step-4 Bug under the default 2-hour `min-age`, and no
finding once a directive raises `min-age` to seven days. -/
theorem c7_metric_disappearance_witness :
    checkSelector ctxVanishedMetric exprFooOnly ruleNone [] [] selFooJob =
      [step4Problem ctxVanishedMetric exprFooOnly (stripLabels selFooJob) trsVan] ∧
    checkSelector ctxVanishedMinAge exprFooOnly ruleMinAge [] [] selFooJob = [] := by
  constructor
  · have h := (c7_metric_disappearance ctxVanishedMetric exprFooOnly ruleNone [] selFooJob ("uri") trsVan
      7200000000000 (by decide) rfl rfl (by decide) (by decide) (by decide) (by decide) rfl).1
    rw [h, if_pos (by decide)]
  · have h := (c7_metric_disappearance ctxVanishedMinAge exprFooOnly ruleMinAge [] selFooJob ("uri") trsVan
      604800000000000 (by decide) rfl rfl (by decide) (by decide) (by decide) (by decide) rfl).1
    rw [h, if_neg (by decide)]

/-- C8: the high-churn downgrade applies only to the step-5 absence
finding — its severity is Warning exactly when the matcher's label was
flagged, and its message then carries the churn note — while the outcome
of steps 6 and 7 is independent of the flagged labels and the findings of
steps 6, 7 and 8 have the fixed severities Bug, Warning and Warning. -/
theorem c8_churn_downgrade_scope (ctx : Ctx) (expr : PromQLExpr) (rule : Rule)
    (selector bareSelector : VectorSelector) (metricName : String) (trs : timeRanges)
    (problems : List Problem) (lm : Matcher) (trsLabel : timeRanges)
    (hname : ¬ lm.name = metricNameLabel)
    (htype : ¬ (lm.mtype ≠ MatchType.MatchEqual ∧ lm.mtype ≠ MatchType.MatchRegexp))
    (hign : isLabelValueIgnored rule selector lm.name = false)
    (hq : serieTimeRanges ctx (countQueryStr { name := metricName, labelMatchers := [lm] }) rangeLookback rangeStep = Except.ok trsLabel) :
    (trsLabel.ranges.length = 0 →
      ∀ churn : List String,
        matcherStep ctx expr rule selector bareSelector metricName trs churn problems lm =
          problems ++ [step5Problem ctx expr selector bareSelector trs lm churn trsLabel]) ∧
    (∀ churn : List String,
      (step5Problem ctx expr selector bareSelector trs lm churn trsLabel).severity =
        (if churn.contains lm.name then Severity.Warning else Severity.Bug)) ∧
    (∀ churn : List String,
      (step5Problem ctx expr selector bareSelector trs lm churn trsLabel).text =
        (if churn.contains lm.name then
          (step5Problem ctx expr selector bareSelector trs lm [] trsLabel).text ++ (", \x22") ++ lm.name ++ ("\x22 looks like a high churn label")
        else (step5Problem ctx expr selector bareSelector trs lm [] trsLabel).text)) ∧
    (trsLabel.ranges.length ≠ 0 →
      ∀ churn1 churn2 : List String,
        matcherStep ctx expr rule selector bareSelector metricName trs churn1 problems lm =
          matcherStep ctx expr rule selector bareSelector metricName trs churn2 problems lm) ∧
    (∀ (labelSelector : VectorSelector) (trsL2 : timeRanges),
      (step6Problem ctx expr bareSelector labelSelector trs lm trsL2).severity = Severity.Bug) ∧
    (∀ trsL2 : timeRanges,
      (step7Problem ctx expr selector bareSelector trs lm trsL2).severity = Severity.Warning) ∧
    (step8Problem ctx expr bareSelector trs).severity = Severity.Warning := by
  have hignP : ¬ (isLabelValueIgnored rule selector lm.name = true) := by
    rw [hign]
    decide
  refine ⟨?_, ?_, ?_, ?_, fun _ _ => rfl, fun _ => rfl, rfl⟩
  · intro hempty churn
    simp only [matcherStep, if_neg hname, if_neg htype, if_neg hignP, hq]
    rw [if_pos hempty]
  · intro churn
    unfold step5Problem
    by_cases h : lm.name ∈ churn <;> simp [h]
  · intro churn
    unfold step5Problem
    by_cases h : lm.name ∈ churn <;> simp [h, String.append_assoc]
  · intro hne churn1 churn2
    simp only [matcherStep, if_neg hname, if_neg htype, if_neg hignP, hq]
    rw [if_neg hne, if_neg hne]

/-- Witness for C8: an absent matcher whose label is flagged high-churn
yields the downgraded step-5 finding, and with historical intervals
present the outcome does not depend on the flagged labels. -/
theorem c8_churn_downgrade_scope_witness :
    matcherStep ctxVanishedMetric exprFooOnly ruleNone selFooJob (stripLabels selFooJob) ("foo") trsVan
        [("job")] [] { name := ("job"), mtype := MatchType.MatchEqual, value := ("x") } =
      [] ++ [step5Problem ctxVanishedMetric exprFooOnly selFooJob (stripLabels selFooJob) trsVan
        { name := ("job"), mtype := MatchType.MatchEqual, value := ("x") } [("job")]
        { uri := ("uri"), tfrom := 0, tuntil := 604800000000000, step := rangeStep, ranges := [] }] ∧
    (step5Problem ctxVanishedMetric exprFooOnly selFooJob (stripLabels selFooJob) trsVan
        { name := ("job"), mtype := MatchType.MatchEqual, value := ("x") } [("job")]
        { uri := ("uri"), tfrom := 0, tuntil := 604800000000000, step := rangeStep, ranges := [] }).severity = Severity.Warning ∧
    matcherStep ctxLateMatcher exprFooOnly ruleNone selFooJob (stripLabels selFooJob) ("foo") trsVan
        [("job")] [] { name := ("job"), mtype := MatchType.MatchEqual, value := ("x") } =
      matcherStep ctxLateMatcher exprFooOnly ruleNone selFooJob (stripLabels selFooJob) ("foo") trsVan
        [] [] { name := ("job"), mtype := MatchType.MatchEqual, value := ("x") } := by
  refine ⟨?_, ?_, ?_⟩
  · exact (c8_churn_downgrade_scope ctxVanishedMetric exprFooOnly ruleNone selFooJob (stripLabels selFooJob)
      ("foo") trsVan [] { name := ("job"), mtype := MatchType.MatchEqual, value := ("x") }
      { uri := ("uri"), tfrom := 0, tuntil := 604800000000000, step := rangeStep, ranges := [] }
      (by decide) (by decide) rfl rfl).1 rfl [("job")]
  · have h := (c8_churn_downgrade_scope ctxVanishedMetric exprFooOnly ruleNone selFooJob (stripLabels selFooJob)
      ("foo") trsVan [] { name := ("job"), mtype := MatchType.MatchEqual, value := ("x") }
      { uri := ("uri"), tfrom := 0, tuntil := 604800000000000, step := rangeStep, ranges := [] }
      (by decide) (by decide) rfl rfl).2.1 [("job")]
    rw [h, if_pos (by decide)]
  · exact (c8_churn_downgrade_scope ctxLateMatcher exprFooOnly ruleNone selFooJob (stripLabels selFooJob)
      ("foo") trsVan [] { name := ("job"), mtype := MatchType.MatchEqual, value := ("x") }
      { uri := ("uri"), tfrom := 0, tuntil := 604800000000000, step := rangeStep,
        ranges := [{ labels := [(("job"), ("x"))], start := 590400000000000, stop := 590700000000000 }] }
      (by decide) (by decide) rfl rfl).2.2.2.1 (by decide) [("job")] []

/-- C9: a failing backend query never aborts the evaluation: at each query
site (step 1, step 2, the per-label loop and the per-matcher loop) the
error becomes exactly one finding for the selector or matcher being
evaluated — with the severity produced by the shared classification
routine invoked with default severity Bug — and evaluation continues with
the next selector, label or matcher. -/
theorem c9_query_errors (ctx : Ctx) (expr : PromQLExpr) (rule : Rule) (entries : List Entry)
    (problems : List Problem) (selector : VectorSelector) :
    (∀ e : String,
      ¬ (selectorMetricName selector = ("ALERTS") ∨ selectorMetricName selector = ("ALERTS_FOR_STATE")) →
      instantSeriesCount ctx (countQueryStr selector) = Except.error e →
      checkSelector ctx expr rule entries problems selector =
        problems ++ [queryProblem ctx e selector.toStr expr]) ∧
    (∀ (e u : String),
      ¬ (selectorMetricName selector = ("ALERTS") ∨ selectorMetricName selector = ("ALERTS_FOR_STATE")) →
      instantSeriesCount ctx (countQueryStr selector) = Except.ok (0, u) →
      serieTimeRanges ctx (countQueryStr (stripLabels selector)) rangeLookback rangeStep = Except.error e →
      checkSelector ctx expr rule entries problems selector =
        problems ++ [queryProblem ctx e (stripLabels selector).toStr expr]) ∧
    (∀ (e name : String) (acc : List Problem × List String),
      serieTimeRanges ctx (labelQueryStr selector name) rangeLookback rangeStep = Except.error e →
      labelLoopStep ctx expr selector (stripLabels selector) acc name =
        (acc.1 ++ [queryProblem ctx e selector.toStr expr], acc.2)) ∧
    (∀ (e metricName : String) (trs : timeRanges) (churn : List String) (lm : Matcher),
      ¬ lm.name = metricNameLabel →
      ¬ (lm.mtype ≠ MatchType.MatchEqual ∧ lm.mtype ≠ MatchType.MatchRegexp) →
      isLabelValueIgnored rule selector lm.name = false →
      serieTimeRanges ctx (countQueryStr { name := metricName, labelMatchers := [lm] }) rangeLookback rangeStep = Except.error e →
      matcherStep ctx expr rule selector (stripLabels selector) metricName trs churn problems lm =
        problems ++ [queryProblem ctx e (VectorSelector.toStr { name := metricName, labelMatchers := [lm] }) expr]) ∧
    (∀ e frag : String,
      (queryProblem ctx e frag expr).severity =
        (ctx.textAndSeverityFromError e seriesCheckName ctx.promName Severity.Bug).2) := by
  refine ⟨?_, ?_, ?_, ?_, fun _ _ => rfl⟩
  · intro e h0 h1
    simp only [checkSelector, if_neg h0, h1]
  · intro e u h0 h1 h2
    simp only [checkSelector, if_neg h0, h1, h2]
    simp
  · intro e name acc h
    simp only [labelLoopStep, h]
  · intro e metricName trs churn lm hname htype hign h
    have hignP : ¬ (isLabelValueIgnored rule selector lm.name = true) := by
      rw [hign]
      decide
    simp only [matcherStep, if_neg hname, if_neg htype, if_neg hignP, h]

/-- Witness for C9: against an always-failing backend, one selector yields
exactly its one classified finding, one step-3 label iteration appends its
one finding past the accumulator, and one matcher iteration does the same. -/
theorem c9_query_errors_witness :
    checkSelector ctxFailing exprFooOnly ruleNone [] [] selFooJob =
      [] ++ [queryProblem ctxFailing ("connection refused") selFooJob.toStr exprFooOnly] ∧
    labelLoopStep ctxFailing exprFooOnly selFooJob (stripLabels selFooJob) ([probeProblem], []) ("job") =
      ([probeProblem] ++ [queryProblem ctxFailing ("connection refused") selFooJob.toStr exprFooOnly], []) ∧
    matcherStep ctxFailing exprFooOnly ruleNone selFooJob (stripLabels selFooJob) ("foo") trsVan [] []
        { name := ("job"), mtype := MatchType.MatchEqual, value := ("x") } =
      [] ++ [queryProblem ctxFailing ("connection refused")
        (VectorSelector.toStr { name := ("foo"), labelMatchers := [{ name := ("job"), mtype := MatchType.MatchEqual, value := ("x") }] }) exprFooOnly] ∧
    (queryProblem ctxFailing ("connection refused") selFooJob.toStr exprFooOnly).severity = Severity.Bug := by
  refine ⟨?_, ?_, ?_, rfl⟩
  · exact (c9_query_errors ctxFailing exprFooOnly ruleNone [] [] selFooJob).1 ("connection refused") (by decide) rfl
  · exact (c9_query_errors ctxFailing exprFooOnly ruleNone [] [] selFooJob).2.2.1 ("connection refused") ("job") ([probeProblem], []) rfl
  · exact (c9_query_errors ctxFailing exprFooOnly ruleNone [] [] selFooJob).2.2.2.1 ("connection refused") ("foo") trsVan []
      { name := ("job"), mtype := MatchType.MatchEqual, value := ("x") } (by decide) (by decide) rfl rfl

/-- When no interval admits the sample, the scan of `serieTimeRanges`
finds nothing to extend. -/
theorem extendFirst_none_of_no_match (L : LabelSet) (ts step : Int) :
    ∀ rs : List timeRange,
      (∀ r ∈ rs, ¬ (r.labels = L ∧ r.start ≤ ts ∧ ts ≤ r.stop)) →
      extendFirst L ts step rs = none := by
  intro rs
  induction rs with
  | nil => intro _; rfl
  | cons r rs ih =>
    intro h
    unfold extendFirst
    rw [if_neg (h r (List.mem_cons_self r rs)), ih (fun x hx => h x (List.mem_cons_of_mem r hx))]

/-- When the scan finds nothing to extend, no interval of the label-set
admits the sample. -/
theorem extendFirst_eq_none (L : LabelSet) (ts step : Int) :
    ∀ rs : List timeRange,
      extendFirst L ts step rs = none →
      ∀ r ∈ rs, r.labels = L → ts < r.start ∨ r.stop < ts := by
  intro rs
  induction rs with
  | nil => intro _ r hr; exact absurd hr (List.not_mem_nil r)
  | cons r0 rs ih =>
    intro h r hr hL
    unfold extendFirst at h
    by_cases hc : r0.labels = L ∧ r0.start ≤ ts ∧ ts ≤ r0.stop
    · rw [if_pos hc] at h
      exact absurd h (by simp)
    · rw [if_neg hc] at h
      rcases List.mem_cons.mp hr with h0 | h1
      · subst h0
        rcases not_and_or.mp hc with hx | hx
        · exact absurd hL hx
        · rcases not_and_or.mp hx with hy | hy
          · exact Or.inl (lt_of_not_le hy)
          · exact Or.inr (lt_of_not_le hy)
      · cases hm : extendFirst L ts step rs with
        | some rs2 => rw [hm] at h; exact absurd h (by simp)
        | none => exact ih hm r h1 hL

/-- When the scan extends an interval, the list decomposes around the
first admitting interval of the exact label-set, whose end becomes
`ts + step`. -/
theorem extendFirst_eq_some (L : LabelSet) (ts step : Int) :
    ∀ (rs rs2 : List timeRange),
      extendFirst L ts step rs = some rs2 →
      ∃ pre r post,
        rs = pre ++ r :: post ∧
        rs2 = pre ++ ({ r with stop := ts + step } : timeRange) :: post ∧
        r.labels = L ∧ r.start ≤ ts ∧ ts ≤ r.stop := by
  intro rs
  induction rs with
  | nil => intro rs2 h; exact absurd h (by simp [extendFirst])
  | cons r0 rs ih =>
    intro rs2 h
    unfold extendFirst at h
    by_cases hc : r0.labels = L ∧ r0.start ≤ ts ∧ ts ≤ r0.stop
    · rw [if_pos hc] at h
      refine ⟨[], r0, rs, rfl, ?_, hc.1, hc.2.1, hc.2.2⟩
      simpa using h.symm
    · rw [if_neg hc] at h
      cases hm : extendFirst L ts step rs with
      | none => rw [hm] at h; exact absurd h (by simp)
      | some rsx =>
        rw [hm] at h
        rcases ih rsx hm with ⟨pre, r, post, he1, he2, he3, he4, he5⟩
        refine ⟨r0 :: pre, r, post, by rw [he1]; rfl, ?_, he3, he4, he5⟩
        have : rs2 = r0 :: rsx := by simpa using h.symm
        rw [this, he2]
        rfl

/-- Filtering by label-set distributes over append. -/
theorem rangesFor_append (L : LabelSet) (l1 l2 : List timeRange) :
    rangesFor L (l1 ++ l2) = rangesFor L l1 ++ rangesFor L l2 :=
  List.filter_append l1 l2

/-- Membership in the label-filtered interval list. -/
theorem mem_rangesFor {L : LabelSet} {r : timeRange} {rs : List timeRange} :
    r ∈ rangesFor L rs ↔ r ∈ rs ∧ r.labels = L := by
  simp [rangesFor, List.mem_filter]

/-- A sample of a different label-set leaves the `L`-intervals untouched. -/
theorem addSample_rangesFor_other (L Lx : LabelSet) (hne : ¬ Lx = L) (step ts : Int) (rs : List timeRange) :
    rangesFor L (addSample step rs Lx ts) = rangesFor L rs := by
  unfold addSample
  cases hm : extendFirst Lx ts step rs with
  | none =>
    rw [rangesFor_append]
    have hz : rangesFor L [{ labels := Lx, start := ts, stop := ts + step }] = [] := by
      simp [rangesFor, hne]
    rw [hz, List.append_nil]
  | some rs2 =>
    rcases extendFirst_eq_some Lx ts step rs rs2 hm with ⟨pre, r, post, he1, he2, he3, _, _⟩
    have hrL : ¬ (r.labels = L) := by
      rw [he3]
      exact hne
    rw [he1, he2, rangesFor_append, rangesFor_append]
    congr 1
    simp [rangesFor, List.filter_cons, hrL]

/-- Preservation of the coalescing invariant by one sample of label-set
`L` arriving at or after every earlier `L`-timestamp. -/
theorem addSample_inv (L : LabelSet) (m ts step : Int) (rs : List timeRange)
    (hstep : 0 ≤ step) (hinv : coalesceInv L m rs) (hm : m ≤ ts) :
    coalesceInv L ts (addSample step rs L ts) := by
  obtain ⟨hpw, hwf⟩ := hinv
  unfold addSample
  cases hme : extendFirst L ts step rs with
  | none =>
    have hno := extendFirst_eq_none L ts step rs hme
    have hsingle : rangesFor L [{ labels := L, start := ts, stop := ts + step }] =
        [{ labels := L, start := ts, stop := ts + step }] := by
      simp [rangesFor]
    constructor
    · rw [rangesFor_append, hsingle, List.pairwise_append]
      refine ⟨hpw, List.pairwise_singleton _ _, ?_⟩
      intro a ha b hb
      obtain ⟨ha1, ha2⟩ := mem_rangesFor.mp ha
      have hb2 : b = { labels := L, start := ts, stop := ts + step } := List.mem_singleton.mp hb
      subst hb2
      rcases hno a ha1 ha2 with hlt | hgt
      · have := (hwf a ha).2
        exact absurd hlt (by omega)
      · exact hgt
    · intro r hr
      rw [rangesFor_append, hsingle] at hr
      rcases List.mem_append.mp hr with h1 | h2
      · exact ⟨(hwf r h1).1, le_trans (hwf r h1).2 hm⟩
      · have hr2 : r = { labels := L, start := ts, stop := ts + step } := List.mem_singleton.mp h2
        subst hr2
        exact ⟨by simpa using hstep, le_refl ts⟩
  | some rs2 =>
    rcases extendFirst_eq_some L ts step rs rs2 hme with ⟨pre, r, post, he1, he2, he3, he4, he5⟩
    subst he1
    subst he2
    have hsplit : rangesFor L (pre ++ r :: post) = rangesFor L pre ++ r :: rangesFor L post := by
      rw [rangesFor_append]
      congr 1
      simp [rangesFor, List.filter_cons, he3]
    rw [hsplit] at hpw hwf
    have hpost : rangesFor L post = [] := by
      rw [List.eq_nil_iff_forall_not_mem]
      intro x hx
      have hrx : disjBefore r x := by
        have := (List.pairwise_append.mp hpw).2.1
        exact (List.pairwise_cons.mp this).1 x hx
      have hxs : x.start ≤ m := (hwf x (by simp [hx])).2
      have hstop : ts ≤ r.stop := he5
      unfold disjBefore at hrx
      omega
    have hsplit2 : rangesFor L (pre ++ ({ r with stop := ts + step } : timeRange) :: post) =
        rangesFor L pre ++ ({ r with stop := ts + step } : timeRange) :: rangesFor L post := by
      rw [rangesFor_append]
      congr 1
      have : ({ r with stop := ts + step } : timeRange).labels = r.labels := rfl
      simp [rangesFor, List.filter_cons, this, he3]
    constructor
    · rw [hsplit2, hpost, List.pairwise_append]
      refine ⟨(List.pairwise_append.mp hpw).1, List.pairwise_singleton _ _, ?_⟩
      intro a ha b hb
      have hb2 : b = ({ r with stop := ts + step } : timeRange) := List.mem_singleton.mp hb
      subst hb2
      have := (List.pairwise_append.mp hpw).2.2 a ha r (by simp)
      exact this
    · rw [hsplit2, hpost]
      intro x hx
      rcases List.mem_append.mp hx with h1 | h2
      · exact ⟨(hwf x (by simp [h1])).1, le_trans (hwf x (by simp [h1])).2 hm⟩
      · have hx2 : x = ({ r with stop := ts + step } : timeRange) := List.mem_singleton.mp h2
        subst hx2
        refine ⟨?_, he4⟩
        show r.start ≤ ts + step
        omega

/-- The coalescing fold preserves the invariant along any sample sequence
whose `L`-timestamps are sorted and start at or after `m`. -/
theorem buildRanges_inv (L : LabelSet) (step : Int) (hstep : 0 ≤ step) :
    ∀ (ss : List (LabelSet × Int)) (rs : List timeRange) (m : Int),
      coalesceInv L m rs →
      List.Chain (fun a b => a ≤ b) m ((ss.filter (fun p => p.1 = L)).map Prod.snd) →
      ∃ m2, coalesceInv L m2 (ss.foldl (fun acc p => addSample step acc p.1 p.2) rs) := by
  intro ss
  induction ss with
  | nil => intro rs m hinv _; exact ⟨m, hinv⟩
  | cons p ss ih =>
    intro rs m hinv hchain
    rw [List.foldl_cons]
    by_cases hL : p.1 = L
    · have hfilter : ((p :: ss).filter (fun q => q.1 = L)) = p :: ss.filter (fun q => q.1 = L) := by
        simp [List.filter_cons, hL]
      rw [hfilter, List.map_cons] at hchain
      have hchain2 := List.chain_cons.mp hchain
      rw [hL]
      exact ih (addSample step rs L p.2) p.2
        (addSample_inv L m p.2 step rs hstep hinv hchain2.1) hchain2.2
    · have hfilter : ((p :: ss).filter (fun q => q.1 = L)) = ss.filter (fun q => q.1 = L) := by
        simp [List.filter_cons, hL]
      rw [hfilter] at hchain
      have hinv2 : coalesceInv L m (addSample step rs p.1 p.2) := by
        obtain ⟨h1, h2⟩ := hinv
        constructor
        · rw [addSample_rangesFor_other L p.1 hL step p.2 rs]
          exact h1
        · rw [addSample_rangesFor_other L p.1 hL step p.2 rs]
          exact h2
      exact ih _ m hinv2 hchain

/-- For timestamp-ordered samples of each label-set, the intervals built
for that label-set are pairwise ordered and disjoint. -/
theorem buildRanges_pairwise (L : LabelSet) (step : Int) (ss : List (LabelSet × Int))
    (hstep : 0 ≤ step)
    (hsorted : List.Chain' (fun a b => a ≤ b) ((ss.filter (fun p => p.1 = L)).map Prod.snd)) :
    (rangesFor L (buildRanges step ss)).Pairwise disjBefore := by
  have hbase : ∀ m : Int, coalesceInv L m [] := by
    intro m
    constructor
    · simp [rangesFor]
    · simp [rangesFor]
  unfold buildRanges
  cases hts : (ss.filter (fun p => p.1 = L)).map Prod.snd with
  | nil =>
    have hchain : List.Chain (fun a b => a ≤ b) 0 ((ss.filter (fun p => p.1 = L)).map Prod.snd) := by
      rw [hts]
      exact List.Chain.nil
    rcases buildRanges_inv L step hstep ss [] 0 (hbase 0) hchain with ⟨m2, hinv⟩
    exact hinv.1
  | cons t rest =>
    have hchain : List.Chain (fun a b => a ≤ b) t ((ss.filter (fun p => p.1 = L)).map Prod.snd) := by
      rw [hts]
      rw [hts] at hsorted
      exact List.chain_cons.mpr ⟨le_refl t, hsorted⟩
    rcases buildRanges_inv L step hstep ss [] t (hbase t) hchain with ⟨m2, hinv⟩
    exact hinv.1

/-- The stream-by-stream nested fold of `serieTimeRanges` equals the fold
over the flattened sample sequence. -/
theorem serieTimeRanges_flatten (step : Int) :
    ∀ (l : List SampleStream) (acc : List timeRange),
      l.foldl (fun a s => s.values.foldl (fun a2 ts => addSample step a2 s.metric ts) a) acc =
      (flattenSamples l).foldl (fun a p => addSample step a p.1 p.2) acc := by
  intro l
  induction l with
  | nil => intro acc; rfl
  | cons s l ih =>
    intro acc
    rw [List.foldl_cons]
    unfold flattenSamples
    rw [List.flatMap_cons, List.foldl_append, List.foldl_map]
    rw [ih]
    rfl

/-- A successful range query makes `serieTimeRanges` return exactly the
query window and the coalesced flattened samples. -/
theorem serieTimeRanges_ok (ctx : Ctx) (q : String) (lookback step : Int) (qr : RangeQueryResult)
    (h : ctx.rangeQuery q lookback step = Except.ok qr) :
    serieTimeRanges ctx q lookback step =
      Except.ok { uri := qr.uri, tfrom := qr.start, tuntil := qr.stop, step := step,
                  ranges := buildRanges step (flattenSamples qr.samples) } := by
  unfold serieTimeRanges
  rw [h]
  dsimp only
  rw [serieTimeRanges_flatten step qr.samples []]
  rfl

/-- Three consecutive samples coalesce into one interval of three steps; a
fourth sample two steps past its end opens a second interval. -/
theorem buildRanges_example (L : LabelSet) (t step : Int) (hstep : 0 < step) :
    buildRanges step [(L, t), (L, t + step), (L, t + 2*step)] =
      [{ labels := L, start := t, stop := t + 3*step }] ∧
    buildRanges step [(L, t), (L, t + step), (L, t + 2*step), (L, t + 5*step)] =
      [{ labels := L, start := t, stop := t + 3*step },
       { labels := L, start := t + 5*step, stop := t + 6*step }] := by
  have e0 : addSample step [] L t = [{ labels := L, start := t, stop := t + step }] := rfl
  have x1 : extendFirst L (t + step) step [{ labels := L, start := t, stop := t + step }] =
      some [{ labels := L, start := t, stop := t + step + step }] := by
    unfold extendFirst
    rw [if_pos ⟨rfl, show t ≤ t + step by omega, show t + step ≤ t + step by omega⟩]
  have e1 : addSample step [{ labels := L, start := t, stop := t + step }] L (t + step) =
      [{ labels := L, start := t, stop := t + step + step }] := by
    unfold addSample
    rw [x1]
  have x2 : extendFirst L (t + 2*step) step [{ labels := L, start := t, stop := t + step + step }] =
      some [{ labels := L, start := t, stop := t + 2*step + step }] := by
    unfold extendFirst
    rw [if_pos ⟨rfl, show t ≤ t + 2*step by omega, show t + 2*step ≤ t + step + step by omega⟩]
  have e2 : addSample step [{ labels := L, start := t, stop := t + step + step }] L (t + 2*step) =
      [{ labels := L, start := t, stop := t + 2*step + step }] := by
    unfold addSample
    rw [x2]
  have x3 : extendFirst L (t + 5*step) step [{ labels := L, start := t, stop := t + 2*step + step }] = none := by
    unfold extendFirst
    rw [if_neg]
    · rfl
    · intro hcontra
      have h3 : t + 5*step ≤ t + 2*step + step := hcontra.2.2
      omega
  have e3 : addSample step [{ labels := L, start := t, stop := t + 2*step + step }] L (t + 5*step) =
      [{ labels := L, start := t, stop := t + 2*step + step },
       { labels := L, start := t + 5*step, stop := t + 5*step + step }] := by
    unfold addSample
    rw [x3]
    rfl
  constructor
  · unfold buildRanges
    simp only [List.foldl_cons, List.foldl_nil]
    rw [e0, e1, e2]
    simp only [List.cons.injEq, timeRange.mk.injEq, and_true, true_and]
    omega
  · unfold buildRanges
    simp only [List.foldl_cons, List.foldl_nil]
    rw [e0, e1, e2, e3]
    simp only [List.cons.injEq, timeRange.mk.injEq, and_true, true_and]
    omega

/-- C4: `serieTimeRanges` coalesces a successful range query into the fold
of `addSample` over the flattened samples; a sample admitted by no
interval opens a fresh interval `[ts, ts+step)` at the end; a sample with
`start ≤ ts ≤ end` on the first interval of its exact label-set extends
that interval's end to `ts + step`; three consecutive samples at
`t, t+step, t+2*step` of one label-set yield exactly one interval
`[t, t+3*step)` and a next sample at `t+5*step` opens a second interval;
and for timestamp-ordered samples of each label-set the resulting
intervals of that label-set are pairwise ordered and disjoint. -/
theorem c4_time_range_builder :
    (∀ (ctx : Ctx) (q : String) (lookback step : Int) (qr : RangeQueryResult),
      ctx.rangeQuery q lookback step = Except.ok qr →
      serieTimeRanges ctx q lookback step =
        Except.ok { uri := qr.uri, tfrom := qr.start, tuntil := qr.stop, step := step,
                    ranges := buildRanges step (flattenSamples qr.samples) }) ∧
    (∀ (L : LabelSet) (ts step : Int) (rs : List timeRange),
      (∀ r ∈ rs, ¬ (r.labels = L ∧ r.start ≤ ts ∧ ts ≤ r.stop)) →
      addSample step rs L ts = rs ++ [{ labels := L, start := ts, stop := ts + step }]) ∧
    (∀ (L : LabelSet) (ts step : Int) (r : timeRange) (rs : List timeRange),
      r.labels = L → r.start ≤ ts → ts ≤ r.stop →
      addSample step (r :: rs) L ts = ({ r with stop := ts + step } : timeRange) :: rs) ∧
    (∀ (L : LabelSet) (t step : Int), 0 < step →
      buildRanges step [(L, t), (L, t + step), (L, t + 2*step)] =
        [{ labels := L, start := t, stop := t + 3*step }] ∧
      buildRanges step [(L, t), (L, t + step), (L, t + 2*step), (L, t + 5*step)] =
        [{ labels := L, start := t, stop := t + 3*step },
         { labels := L, start := t + 5*step, stop := t + 6*step }]) ∧
    (∀ (L : LabelSet) (step : Int) (ss : List (LabelSet × Int)),
      0 ≤ step →
      List.Chain' (fun a b => a ≤ b) ((ss.filter (fun p => p.1 = L)).map Prod.snd) →
      (rangesFor L (buildRanges step ss)).Pairwise disjBefore) := by
  refine ⟨serieTimeRanges_ok, ?_, ?_, buildRanges_example, ?_⟩
  · intro L ts step rs h
    unfold addSample
    rw [extendFirst_none_of_no_match L ts step rs h]
  · intro L ts step r rs h1 h2 h3
    unfold addSample
    unfold extendFirst
    rw [if_pos ⟨h1, h2, h3⟩]
  · intro L step ss h1 h2
    exact buildRanges_pairwise L step ss h1 h2

/-- Witness for C4: each part of the coalescing theorem evaluated at a
concrete input — the late-matcher backend's matcher query, a fresh sample
on an empty interval list, an extension of an admitting interval, the
three-plus-one sample example at `t = 0`, `step = 2`, and seven-day-window
disjointness for a two-label sample sequence. -/
theorem c4_time_range_builder_witness :
    serieTimeRanges ctxLateMatcher ("count(foo)") rangeLookback rangeStep =
      Except.ok { uri := ("uri"), tfrom := 0, tuntil := 604800000000000, step := rangeStep,
                  ranges := buildRanges rangeStep (flattenSamples [{ metric := [], values := [0, 3000000000000] }]) } ∧
    addSample 2 [] [(("a"), ("b"))] 5 = [] ++ [{ labels := [(("a"), ("b"))], start := 5, stop := 7 }] ∧
    addSample 4 [{ labels := [(("a"), ("b"))], start := 0, stop := 5 }] [(("a"), ("b"))] 3 =
      [{ labels := [(("a"), ("b"))], start := 0, stop := 7 }] ∧
    buildRanges 2 [([], 0), ([], 2), ([], 4)] = [{ labels := [], start := 0, stop := 6 }] ∧
    (rangesFor [(("a"), ("b"))] (buildRanges 2 [([(("a"), ("b"))], 0), ([], 1), ([(("a"), ("b"))], 10)])).Pairwise disjBefore := by
  refine ⟨?_, ?_, ?_, ?_, ?_⟩
  · exact c4_time_range_builder.1 ctxLateMatcher ("count(foo)") rangeLookback rangeStep
      { uri := ("uri"), start := 0, stop := 604800000000000,
        samples := [{ metric := [], values := [0, 3000000000000] }] } rfl
  · exact c4_time_range_builder.2.1 [(("a"), ("b"))] 5 2 [] (by simp)
  · have h := c4_time_range_builder.2.2.1 [(("a"), ("b"))] 3 4
      { labels := [(("a"), ("b"))], start := 0, stop := 5 } [] rfl
      (show (0 : Int) ≤ 3 by omega) (show (3 : Int) ≤ 5 by omega)
    rw [h]
    rfl
  · have h := (c4_time_range_builder.2.2.2.1 [] 0 2 (by omega)).1
    norm_num at h
    exact h
  · exact c4_time_range_builder.2.2.2.2 [(("a"), ("b"))] 2
      [([(("a"), ("b"))], 0), ([], 1), ([(("a"), ("b"))], 10)] (by omega) (by simp)

end PintSeries
